import Mathlib

/-!
Verification of the port-logistics seeding script (`populate_db.py`).

The script is shallowly embedded: each Python function becomes a Lean
definition of the same name (modulo naming rules), the database connection
is modelled as an explicit committed/current state pair with commit and
rollback, and the pseudo-random/fake-data capability (the `faker` library)
is modelled by explicit draw functions passed in as a `Rands` record, with
each bounded faker primitive realised as "draw modulo range".
-/

namespace PopulateDb

/-! ## Decimal rendering of naturals (Python `str(int)` is Lean `Nat.repr`)

`Nat.repr` is defined through the fuel-driven `Nat.toDigitsCore`; to reason
about it we introduce `natChars`, the fuel-free most-significant-digit-first
character list of a natural number, and prove it equal to `Nat.toDigits 10`.
-/

/-- Decimal digit characters of `n`, most significant first. -/
def natChars (n : Nat) : List Char :=
  if _h : n < 10 then [Nat.digitChar n]
  else natChars (n / 10) ++ [Nat.digitChar (n % 10)]
  decreasing_by
    exact Nat.div_lt_self (by omega) (by omega)

/-- A character is one of the ten decimal digit characters. -/
def isDecDigit (c : Char) : Prop := 48 ≤ c.toNat ∧ c.toNat ≤ 57

instance (c : Char) : Decidable (isDecDigit c) := by
  unfold isDecDigit; infer_instance

/-- Zero-pad a string on the left to width `w` (Python `f"{n:03d}"` and
zero-filling `bothify` digit patterns). -/
def padLeft (w : Nat) (s : String) : String :=
  String.mk (List.replicate (w - s.length) '0') ++ s

/-! ## Models of the bounded faker primitives

Each primitive is a pure function of an externally supplied draw `r : Nat`;
taking the draw modulo the size of the range makes every primitive total and
lets theorems quantify over all draw functions.
-/

/-- `fake.random_element(elements=l)`: some member of the non-empty list `l`,
modelled as indexing by the draw modulo the length. -/
def pick (l : List String) (r : Nat) : String :=
  l.getD (r % l.length) ""

/-- `fake.random_element` over a list of numbers (used for container sizes). -/
def pickNat (l : List Nat) (r : Nat) : Nat :=
  l.getD (r % l.length) 0

/-- `fake.random_int(min=lo, max=hi)`: an integer in `[lo, hi]`. -/
def randomInt (lo hi r : Nat) : Nat :=
  lo + r % (hi - lo + 1)

/-- `fake.random_uppercase_letter()`: a letter `A`–`Z`. -/
def upperLetter (r : Nat) : Char :=
  Char.ofNat (65 + r % 26)

/-- `fake.random_number(digits=d, fix_len=True)`: an integer with exactly `d`
digits, i.e. in `[10^(d-1), 10^d - 1]`. -/
def fixLenNumber (d r : Nat) : Nat :=
  10 ^ (d - 1) + r % (9 * 10 ^ (d - 1))

/-! ## The ISO 6346-style check digit (`generate_container_number`) -/

/-- Numeric value of a character as computed in `generate_container_number`:
`ord(char)`, minus 55 for `A`–`Z`, minus 48 for `0`–`9`, unchanged otherwise. -/
def charValue (c : Char) : Nat :=
  let num := c.toNat
  if 65 ≤ num ∧ num ≤ 90 then num - 55
  else if 48 ≤ num ∧ num ≤ 57 then num - 48
  else num

/-- The weight-and-modulus chain of `generate_container_number`: the value of
the character at 0-indexed position `i` is multiplied by `2 ^ i`, the products
are summed, and the check digit is `(sum % 11) % 10`. -/
def checkDigit (base : List Char) : Nat :=
  ((base.enum.map (fun p => charValue p.2 * 2 ^ p.1)).sum) % 11 % 10

/-- `generate_container_number`, with the fake-data draws (three random
uppercase letters and a 6-digit fixed-length serial) as explicit parameters.
The base is `owner_code ++ "U" ++ str(serial)`; the check digit computed from
the base is appended. -/
def generate_container_number (l1 l2 l3 : Char) (serial : Nat) : String :=
  let owner_code := String.mk [l1, l2, l3]
  let product_group := "U"
  let base := owner_code ++ product_group ++ Nat.repr serial
  base ++ Nat.repr (checkDigit base.data)

/-! ## Fetching and scraping (`get_wikipedia_data`, `scrape_container_ports`)

Fetched content is modelled post-parse as the list of `wikitable` elements of
the page, each a list of `tr` rows, each row the list of its `td` cell texts.
-/

/-- Parsed content of a fetched page. -/
abbrev Page := List (List (List String))

/-- One answer of the HTTP endpoint: either a response with a status code and
parsed body, or a request exception (network error / timeout). -/
inductive FetchResp where
  | success : Nat → Page → FetchResp
  | failure : FetchResp
deriving DecidableEq

/-- `get_wikipedia_data`, over the sequence of responses the endpoint gives to
successive attempts (an empty sequence behaves as a request exception).
Returns the fetched content together with the number of back-off/retry cycles
performed. `response.raise_for_status()` raises on any status `≥ 400`; the
exception is caught and turned into `none`. Since `429 ≥ 400`, the rate-limit
branch (`time.sleep(30)` and the recursive self-call) sits after a raise and
can never run. -/
def get_wikipedia_data : List FetchResp → Option Page × Nat
  | [] => (none, 0)
  | FetchResp.failure :: _ => (none, 0)
  | FetchResp.success status body :: rest =>
    if 400 ≤ status then (none, 0)
    else if status = 429 then
      let r := get_wikipedia_data rest
      (r.1, r.2 + 1)
    else (some body, 0)

/-- `c` counts as a word character for the citation-marker pattern `\[\w+\]`. -/
def isWordChar (c : Char) : Bool :=
  c.isAlphanum || c = '_'

/-- `re.sub(r'\[\w+\]', '', s)`: delete every bracketed run of one or more
word characters, scanning left to right. -/
def stripCites : List Char → List Char
  | [] => []
  | c :: rest =>
    if _h : c = '[' then
      let run := rest.takeWhile isWordChar
      let tail := rest.drop run.length
      if _h2 : run ≠ [] ∧ tail.head? = some ']' then stripCites (tail.drop 1)
      else c :: stripCites rest
    else c :: stripCites rest
  termination_by l => l.length
  decreasing_by
  · simp only [List.length_drop]
    have h3 : (rest.takeWhile isWordChar).length ≤ rest.length :=
      (List.takeWhile_sublist _).length_le
    simp [List.length_cons]
    omega
  · simp [List.length_cons]
  · simp [List.length_cons]

/-- Python `str.strip()`: drop leading and trailing whitespace. -/
def stripEnds (l : List Char) : List Char :=
  ((l.dropWhile Char.isWhitespace).reverse.dropWhile Char.isWhitespace).reverse

/-- The cleaning applied to each scraped port name:
`re.sub(r'\[\w+\]', '', port_name).split('(')[0].strip()`. -/
def cleanPortName (s : String) : String :=
  String.mk (stripEnds ((stripCites s.data).takeWhile (fun c => c ≠ '(')))

/-- Extraction of one table row in `scrape_container_ports`: rows with at
least 3 cells contribute the cleaned text of cell 1, other rows are skipped. -/
def portRowName (row : List String) : Option String :=
  if row.length ≥ 3 then (row.get? 1).map cleanPortName else none

/-- The hardcoded fallback port list of `scrape_container_ports`. -/
def fallbackPorts : List String :=
  ["Shanghai", "Singapore", "Ningbo-Zhoushan", "Shenzhen", "Guangzhou"]

/-- `scrape_container_ports`, over the endpoint's response sequence. When the
fetch yields no content, `ports` keeps its initial value `[]` and is returned
as is; the fallback list is used only when content was fetched but contains no
`wikitable`; otherwise the first table's rows (header skipped) are parsed. -/
def scrape_container_ports (responses : List FetchResp) : List String :=
  match (get_wikipedia_data responses).1 with
  | none => []
  | some tables =>
    match tables with
    | [] => fallbackPorts
    | t0 :: _ => (t0.drop 1).filterMap portRowName

/-! ## The data model: generated rows and the database state

Tables hold rows paired with their store-assigned surrogate ids; ids are
handed out from a single `nextId` counter (`RETURNING` clauses surface them).
The `container` table keeps only payloads because the script never reads
container ids back.
-/

structure Client where
  company_name : String
  contact_person : String
  email : String
  phone_number : String
deriving DecidableEq, Repr

structure Vessel where
  vessel_name : String
  imo_number : String
deriving DecidableEq, Repr

structure Berth where
  berth_number : String
  berth_status_id : Nat
  vessel_id : Option Nat
deriving DecidableEq, Repr

/-- `declared_value` is `float(fake.random_number(digits=5)) + 1000.0` in the
source; both operands are integers below `2^53`, where IEEE doubles are exact,
so the value is kept as a natural number. -/
structure Shipment where
  client_id : Nat
  shipment_status_id : Nat
  bill_of_lading_no : String
  origin : String
  destination : String
  declared_value : Nat
deriving DecidableEq, Repr

structure Container where
  shipment_id : Nat
  vessel_id : Option Nat
  container_type_id : Nat
  container_number : String
  size : Nat
deriving DecidableEq, Repr

structure DB where
  shipmentStatus : List (Nat × String)
  containerType : List (Nat × String)
  berthStatus : List (Nat × String)
  client : List (Nat × Client)
  vessel : List (Nat × Vessel)
  berth : List (Nat × Berth)
  shipment : List (Nat × Shipment)
  container : List Container
  nextId : Nat
deriving DecidableEq, Repr

def emptyDB : DB :=
  { shipmentStatus := [], containerType := [], berthStatus := [],
    client := [], vessel := [], berth := [], shipment := [], container := [],
    nextId := 0 }

/-- The psycopg2 connection with `autocommit = False`: statements act on the
in-transaction `current` state; `commit` makes it durable, `rollback` discards
it. Rows visible outside the run are those of `committed`. -/
structure ConnState where
  committed : DB
  current : DB
deriving DecidableEq, Repr

def ConnState.commit (s : ConnState) : ConnState :=
  { committed := s.current, current := s.current }

def ConnState.rollback (s : ConnState) : ConnState :=
  { committed := s.committed, current := s.committed }

/-- A Python dict comprehension `{row[0]: row[1] for row in rows}` read off a
two-column result set, as a partial name-to-id map (later rows overwrite
earlier ones). -/
def dictOf (rows : List (Nat × String)) (name : String) : Option Nat :=
  (rows.reverse.find? (fun r => r.2 == name)).map (fun r => r.1)

/-! ## The fake-data draws

All faker draws made by the entity stages, as explicit functions of the draw
index (clients and vessels are indexed by loop position, shipments and
containers by the running count of rows already inserted in their stage).
`shipPorts` stands for `fake.random_elements(ports, unique=True, length=2)`,
an external capability returning a without-repetition two-element sample of
the supplied list; theorems constrain it through hypotheses. -/
structure Rands where
  clientContact : Nat → String × String × String
  vesselNameHead : Nat → Nat
  vesselNameTail : Nat → Nat
  vesselNameNum : Nat → Nat
  vesselImo : Nat → Nat
  shipCount : Nat → Nat
  shipStatus : Nat → Nat
  shipPorts : Nat → String × String
  shipBol : Nat → Nat
  shipValue : Nat → Nat
  contCount : Nat → Nat
  contType : Nat → Nat
  contVessel : Nat → Nat
  contLetter1 : Nat → Nat
  contLetter2 : Nat → Nat
  contLetter3 : Nat → Nat
  contSerial : Nat → Nat
  contSize : Nat → Nat

/-! ## Reset and lookup seeding -/

/-- `truncate_tables`: empty every table (reverse-dependency order is
irrelevant to the resulting state) and commit; `TRUNCATE` does not reset the
id sequence. -/
def truncate_tables (s : ConnState) : ConnState :=
  ConnState.commit
    { s with current :=
      { s.current with
        shipmentStatus := [], containerType := [], berthStatus := [],
        client := [], vessel := [], berth := [], shipment := [],
        container := [] } }

/-- `INSERT ... ON CONFLICT DO NOTHING` against the unique name column of an
enumeration table: insert the value only when absent. -/
def insertLookup (t : List (Nat × String)) (nextId : Nat) (name : String) :
    List (Nat × String) × Nat :=
  if name ∈ t.map (fun r => r.2) then (t, nextId)
  else (t ++ [(nextId, name)], nextId + 1)

def insertLookups (t : List (Nat × String)) (nextId : Nat) :
    List String → List (Nat × String) × Nat
  | [] => (t, nextId)
  | n :: ns =>
    let p := insertLookup t nextId n
    insertLookups p.1 p.2 ns

def shipmentStatuses : List String :=
  ["PENDING", "IN_TRANSIT", "AWAITING_CUSTOMS", "CLEARED", "DELIVERED"]

def containerTypes : List String :=
  ["DRY", "REEFER", "OPEN_TOP", "FLAT_RACK"]

def berthStatuses : List String :=
  ["AVAILABLE", "OCCUPIED", "MAINTENANCE"]

/-- The cursor body of `populate_lookup_tables`: the three fixed value sets
inserted if-absent in source order. -/
def populateLookupDb (db : DB) : DB :=
  let p1 := insertLookups db.shipmentStatus db.nextId shipmentStatuses
  let p2 := insertLookups db.containerType p1.2 containerTypes
  let p3 := insertLookups db.berthStatus p2.2 berthStatuses
  { db with
    shipmentStatus := p1.1
    containerType := p2.1
    berthStatus := p3.1
    nextId := p3.2 }

/-- `populate_lookup_tables`: run the inserts, then `db_conn.commit()`. -/
def populate_lookup_tables (s : ConnState) : ConnState :=
  ConnState.commit { s with current := populateLookupDb s.current }

/-! ## Entity stages

Each stage mirrors its source loop; a stage returns `none` where the Python
code would raise (a failed dict lookup, a too-small sample population, or the
injected failure of the atomicity scenario), which the caller turns into a
transaction rollback. -/

def DB.insClient (db : DB) (c : Client) : Nat × DB :=
  (db.nextId,
   { db with client := db.client ++ [(db.nextId, c)], nextId := db.nextId + 1 })

def DB.insVessel (db : DB) (v : Vessel) : Nat × DB :=
  (db.nextId,
   { db with vessel := db.vessel ++ [(db.nextId, v)], nextId := db.nextId + 1 })

def DB.insBerth (db : DB) (b : Berth) : Nat × DB :=
  (db.nextId,
   { db with berth := db.berth ++ [(db.nextId, b)], nextId := db.nextId + 1 })

def DB.insShipment (db : DB) (sh : Shipment) : Nat × DB :=
  (db.nextId,
   { db with
     shipment := db.shipment ++ [(db.nextId, sh)]
     nextId := db.nextId + 1 })

def DB.insContainer (db : DB) (c : Container) : DB :=
  { db with container := db.container ++ [c], nextId := db.nextId + 1 }

def clientsGo (R : Rands) : List String → Nat → DB → List Nat → List Nat × DB
  | [], _, db, acc => (acc, db)
  | company :: rest, k, db, acc =>
    let ct := R.clientContact k
    let p := db.insClient ⟨company, ct.1, ct.2.1, ct.2.2⟩
    clientsGo R rest (k + 1) p.2 (acc ++ [p.1])

/-- `populate_clients`: one row per company name, with synthetic contacts. -/
def populate_clients (db : DB) (companies : List String) (R : Rands) :
    List Nat × DB :=
  clientsGo R companies 0 db []

def vesselNameHeads : List String :=
  ["Atlantic", "Pacific", "Global", "Marine", "Ocean"]

def vesselNameTails : List String :=
  ["Express", "Carrier", "Voyager", "Explorer", "Horizon"]

def vesselsGo (R : Rands) : Nat → Nat → DB → List Nat → List Nat × DB
  | 0, _, db, acc => (acc, db)
  | m + 1, k, db, acc =>
    let vname :=
      pick vesselNameHeads (R.vesselNameHead k) ++ " " ++
      pick vesselNameTails (R.vesselNameTail k) ++ " " ++
      Nat.repr (randomInt 100 999 (R.vesselNameNum k))
    let imo := "98" ++ Nat.repr (fixLenNumber 5 (R.vesselImo k))
    let p := db.insVessel ⟨vname, imo⟩
    vesselsGo R m (k + 1) p.2 (acc ++ [p.1])

/-- `populate_vessels`: `client_count * 3` vessels (3 per client). -/
def populate_vessels (db : DB) (client_count : Nat) (R : Rands) :
    List Nat × DB :=
  vesselsGo R (client_count * 3) 0 db []

def berthsGo (sd : String → Option Nat) (vessel_ids : List Nat) :
    List Nat → DB → List Nat → Option (List Nat × DB)
  | [], db, acc => some (acc, db)
  | i :: rest, db, acc =>
    let status := if i ≤ vessel_ids.length then "OCCUPIED" else "AVAILABLE"
    let vid := if i ≤ vessel_ids.length then vessel_ids.get? (i - 1) else none
    match sd status with
    | none => none
    | some sid =>
      let p := db.insBerth ⟨"B" ++ padLeft 3 (Nat.repr i), sid, vid⟩
      berthsGo sd vessel_ids rest p.2 (acc ++ [p.1])

/-- `populate_berths`: 20 berths `B001`..`B020`; berth `i` is OCCUPIED by
vessel `vessel_ids[i-1]` when `i ≤ len(vessel_ids)`, AVAILABLE with no vessel
otherwise; status ids come from the `BerthStatus` name-to-id dict. -/
def populate_berths (db : DB) (vessel_ids : List Nat) :
    Option (List Nat × DB) :=
  berthsGo (dictOf db.berthStatus) vessel_ids (List.range' 1 20) db []

def status_options : List String :=
  ["PENDING", "IN_TRANSIT", "AWAITING_CUSTOMS", "CLEARED"]

/-- The shipment row inserted for the `k`-th generated shipment, given the
resolved status id `sid`: a unique-tracked `BLD#########` bill of lading, the
two-element port sample, and `float(fake.random_number(digits=5)) + 1000.0`. -/
def shipRow (R : Rands) (client_id sid k : Nat) : Shipment :=
  { client_id := client_id
    shipment_status_id := sid
    bill_of_lading_no := "BLD" ++ padLeft 9 (Nat.repr (R.shipBol k % 10 ^ 9))
    origin := (R.shipPorts k).1
    destination := (R.shipPorts k).2
    declared_value := R.shipValue k % 10 ^ 5 + 1000 }

def shipmentsGo1 (sd : String → Option Nat) (ports : List String) (R : Rands)
    (client_id : Nat) : Nat → DB → List Nat → Option (List Nat × DB)
  | 0, db, acc => some (acc, db)
  | m + 1, db, acc =>
    if ports.length < 2 then none
    else
      match sd (pick status_options (R.shipStatus acc.length)) with
      | none => none
      | some sid =>
        let p := db.insShipment (shipRow R client_id sid acc.length)
        shipmentsGo1 sd ports R client_id m p.2 (acc ++ [p.1])

def shipmentsGo2 (sd : String → Option Nat) (ports : List String) (R : Rands) :
    List Nat → Nat → DB → List Nat → Option (List Nat × DB)
  | [], _, db, acc => some (acc, db)
  | c :: rest, j, db, acc =>
    match shipmentsGo1 sd ports R c (randomInt 2 5 (R.shipCount j)) db acc with
    | none => none
    | some p => shipmentsGo2 sd ports R rest (j + 1) p.2 p.1

/-- `populate_shipments`: for each client, 2–5 shipments; the status is drawn
from `status_options` and resolved through the `ShipmentStatus` dict; origin
and destination are the without-repetition two-element sample of `ports`
(which raises, i.e. `none`, when `ports` has fewer than 2 elements). -/
def populate_shipments (db : DB) (client_ids : List Nat) (ports : List String)
    (R : Rands) : Option (List Nat × DB) :=
  shipmentsGo2 (dictOf db.shipmentStatus) ports R client_ids 0 db []

/-- The container row inserted for the `cnt`-th generated container, given
the resolved type id `tid`: a uniform vessel when any exist (NULL otherwise),
a freshly generated ISO container number, and a size drawn from `[20, 40]`. -/
def contRow (R : Rands) (vessel_ids : List Nat) (shipment_id tid cnt : Nat) :
    Container :=
  { shipment_id := shipment_id
    vessel_id :=
      if vessel_ids.isEmpty then none
      else vessel_ids.get? (R.contVessel cnt % vessel_ids.length)
    container_type_id := tid
    container_number := generate_container_number
      (upperLetter (R.contLetter1 cnt)) (upperLetter (R.contLetter2 cnt))
      (upperLetter (R.contLetter3 cnt)) (fixLenNumber 6 (R.contSerial cnt))
    size := pickNat [20, 40] (R.contSize cnt) }

def containersGo1 (td : String → Option Nat) (R : Rands)
    (vessel_ids : List Nat) (inject : Option Nat) (shipment_id : Nat) :
    Nat → Nat → DB → Option (Nat × DB)
  | 0, cnt, db => some (cnt, db)
  | m + 1, cnt, db =>
    if inject = some cnt then none
    else
      match td (pick containerTypes (R.contType cnt)) with
      | none => none
      | some tid =>
        containersGo1 td R vessel_ids inject shipment_id m (cnt + 1)
          (db.insContainer (contRow R vessel_ids shipment_id tid cnt))

def containersGo2 (td : String → Option Nat) (R : Rands)
    (vessel_ids : List Nat) (inject : Option Nat) :
    List Nat → Nat → Nat → DB → Option (Nat × DB)
  | [], _, cnt, db => some (cnt, db)
  | s :: rest, j, cnt, db =>
    match containersGo1 td R vessel_ids inject s (randomInt 1 4 (R.contCount j))
        cnt db with
    | none => none
    | some p => containersGo2 td R vessel_ids inject rest (j + 1) p.1 p.2

/-- `populate_containers`: for each shipment, 1–4 containers; the type is
resolved through the `ContainerType` dict, the vessel is a uniform member of
`vessel_ids` when that list is non-empty and NULL otherwise. `inject = some k`
models the atomicity scenario's exception, raised once `k` containers have
been inserted (or at the end of the stage if fewer are generated). -/
def populate_containers (db : DB) (shipment_ids vessel_ids : List Nat)
    (R : Rands) (inject : Option Nat) : Option (Nat × DB) :=
  match containersGo2 (dictOf db.containerType) R vessel_ids inject
      shipment_ids 0 0 db with
  | none => none
  | some p => if inject.isSome then none else some p

/-! ## The orchestrating `main` -/

/-- Steps 3–8 of `main` (the part of the try block after the lookup commit):
clients, vessels, berths, shipments, containers, threading ids between
stages. Returns the final in-transaction state, or `none` when a stage
raises. `companies` and `ports` are the results of the two name-resolution
steps, which do not touch the database. -/
def seedEntities (db : DB) (companies ports : List String) (R : Rands)
    (inject : Option Nat) : Option DB :=
  let pc := populate_clients db companies R
  let pv := populate_vessels pc.2 pc.1.length R
  match populate_berths pv.2 pv.1 with
  | none => none
  | some pb =>
    match populate_shipments pb.2 pc.1 ports R with
    | none => none
    | some ps =>
      match populate_containers ps.2 ps.1 pv.1 R inject with
      | none => none
      | some pcon => some pcon.2

/-- `main` after a successful connection: truncate (commits), seed lookup
tables (commits), then run the entity stages inside the open transaction;
any exception rolls back, success commits. The returned database is the
committed state visible after the connection closes. -/
def mainRun (db0 : DB) (companies ports : List String) (R : Rands)
    (inject : Option Nat) : DB :=
  let s1 := truncate_tables (ConnState.mk db0 db0)
  let s2 := populate_lookup_tables s1
  match seedEntities s2.current companies ports R inject with
  | none => (ConnState.rollback s2).committed
  | some cur => (ConnState.commit { s2 with current := cur }).committed

/-- A concrete all-zero draw record, used to instantiate witness runs. -/
def R0 : Rands :=
  { clientContact := fun _ => ("Jane Roe", "jr@example.com", "555-0100")
    vesselNameHead := fun _ => 0
    vesselNameTail := fun _ => 0
    vesselNameNum := fun _ => 0
    vesselImo := fun _ => 0
    shipCount := fun _ => 0
    shipStatus := fun _ => 0
    shipPorts := fun _ => ("Shanghai", "Singapore")
    shipBol := fun _ => 0
    shipValue := fun _ => 0
    contCount := fun _ => 0
    contType := fun _ => 0
    contVessel := fun _ => 0
    contLetter1 := fun _ => 0
    contLetter2 := fun _ => 1
    contLetter3 := fun _ => 2
    contSerial := fun _ => 0
    contSize := fun _ => 0 }

/-- The six-name fallback company list of `scrape_shipping_companies`, used
as a concrete resolved company list in witness runs. -/
def fallbackCompanies : List String :=
  ["Maersk", "Mediterranean Shipping Company", "CMA CGM",
   "COSCO Shipping", "Hapag-Lloyd", "Ocean Network Express"]

/-- The berth row inserted for loop index `i` (1-based) by `populate_berths`,
given the `OCCUPIED` and `AVAILABLE` status ids and the vessel id list. -/
def mkBerthRow (o a : Nat) (vessel_ids : List Nat) (i : Nat) : Berth :=
  { berth_number := "B" ++ padLeft 3 (Nat.repr i)
    berth_status_id := if i ≤ vessel_ids.length then o else a
    vessel_id := if i ≤ vessel_ids.length then vessel_ids.get? (i - 1) else none }

/-- The `ShipmentStatus` table as lookup seeding leaves it when it starts
empty with the id counter at `n`. -/
def shipmentStatusRows (n : Nat) : List (Nat × String) :=
  [(n, "PENDING"), (n + 1, "IN_TRANSIT"), (n + 2, "AWAITING_CUSTOMS"),
   (n + 3, "CLEARED"), (n + 4, "DELIVERED")]

/-- The `ContainerType` table as lookup seeding leaves it when it starts
empty with the id counter at `n`. -/
def containerTypeRows (n : Nat) : List (Nat × String) :=
  [(n, "DRY"), (n + 1, "REEFER"), (n + 2, "OPEN_TOP"), (n + 3, "FLAT_RACK")]

/-- The `BerthStatus` table as lookup seeding leaves it when it starts empty
with the id counter at `n`. -/
def berthStatusRows (n : Nat) : List (Nat × String) :=
  [(n, "AVAILABLE"), (n + 1, "OCCUPIED"), (n + 2, "MAINTENANCE")]

/-!
# Theorems

First the arithmetic-and-rendering toolbox, then per-stage specification
lemmas, then the claim theorems.
-/

theorem natChars_lt (n : Nat) (h : n < 10) : natChars n = [Nat.digitChar n] := by
  rw [natChars]
  simp [h]

theorem natChars_ge (n : Nat) (h : ¬ n < 10) :
    natChars n = natChars (n / 10) ++ [Nat.digitChar (n % 10)] := by
  rw [natChars]
  simp [h]

theorem toDigitsCore_eq_natChars (fuel : Nat) :
    ∀ n ds, n < fuel → Nat.toDigitsCore 10 fuel n ds = natChars n ++ ds := by
  induction fuel with
  | zero => intro n ds h; omega
  | succ f ih =>
    intro n ds h
    by_cases h10 : n / 10 = 0
    · have hn : n < 10 := by omega
      rw [Nat.toDigitsCore]
      simp only [h10, if_pos rfl]
      rw [natChars_lt n hn, Nat.mod_eq_of_lt hn]
      rfl
    · have hn : ¬ n < 10 := by
        intro hc
        exact h10 (Nat.div_eq_of_lt hc)
      rw [Nat.toDigitsCore]
      simp only [if_neg h10]
      rw [ih (n / 10) (Nat.digitChar (n % 10) :: ds)
          (by
            have : n / 10 < n := Nat.div_lt_self (by omega) (by omega)
            omega)]
      rw [natChars_ge n hn]
      simp

theorem toDigits_eq_natChars (n : Nat) : Nat.toDigits 10 n = natChars n := by
  have := toDigitsCore_eq_natChars (n + 1) n [] (by omega)
  simpa [Nat.toDigits] using this

theorem repr_data (n : Nat) : (Nat.repr n).data = natChars n := by
  show (List.asString (Nat.toDigits 10 n)).data = natChars n
  rw [toDigits_eq_natChars]
  rfl

theorem digitChar_isDecDigit (d : Nat) (h : d < 10) : isDecDigit (Nat.digitChar d) := by
  interval_cases d <;> decide

theorem natChars_all_digits (n : Nat) : ∀ c ∈ natChars n, isDecDigit c := by
  induction n using Nat.strong_induction_on with
  | _ n ih =>
    by_cases h : n < 10
    · rw [natChars_lt n h]
      intro c hc
      simp at hc
      subst hc
      exact digitChar_isDecDigit n h
    · rw [natChars_ge n h]
      intro c hc
      rcases List.mem_append.mp hc with hc | hc
      · exact ih (n / 10) (Nat.div_lt_self (by omega) (by omega)) c hc
      · simp at hc
        subst hc
        exact digitChar_isDecDigit (n % 10) (Nat.mod_lt _ (by omega))

theorem natChars_length (k : Nat) :
    ∀ n, 10 ^ k ≤ n → n < 10 ^ (k + 1) → (natChars n).length = k + 1 := by
  induction k with
  | zero =>
    intro n _ h2
    rw [natChars_lt n (by simpa using h2)]
    rfl
  | succ k ih =>
    intro n h1 h2
    have hn : ¬ n < 10 := by
      have : 10 ≤ 10 ^ (k + 1) := by
        calc 10 = 10 ^ 1 := by ring
        _ ≤ 10 ^ (k + 1) := Nat.pow_le_pow_right (by omega) (by omega)
      omega
    rw [natChars_ge n hn]
    have hd1 : 10 ^ k ≤ n / 10 := by
      rw [Nat.le_div_iff_mul_le (by omega)]
      calc 10 ^ k * 10 = 10 ^ (k + 1) := by ring
      _ ≤ n := h1
    have hd2 : n / 10 < 10 ^ (k + 1) := by
      rw [Nat.div_lt_iff_lt_mul (by omega)]
      calc n < 10 ^ (k + 1 + 1) := h2
      _ = 10 ^ (k + 1) * 10 := by ring
    rw [List.length_append, ih (n / 10) hd1 hd2]
    simp

theorem checkDigit_lt_10 (base : List Char) : checkDigit base < 10 :=
  Nat.mod_lt _ (by omega)

theorem charValue_digitChar (d : Nat) (h : d < 10) : charValue (Nat.digitChar d) = d := by
  interval_cases d <;> decide

theorem generate_container_number_data (l1 l2 l3 : Char) (serial : Nat) :
    (generate_container_number l1 l2 l3 serial).data =
      ([l1, l2, l3, 'U'] ++ natChars serial) ++
        natChars (checkDigit ([l1, l2, l3, 'U'] ++ natChars serial)) := by
  show (String.mk [l1, l2, l3] ++ "U" ++ Nat.repr serial ++
      Nat.repr (checkDigit (String.mk [l1, l2, l3] ++ "U" ++ Nat.repr serial).data)).data = _
  simp only [String.data_append, repr_data]
  rfl

/-- C1: every container number produced by `generate_container_number` is an
11-character string whose 11th character is a decimal digit, and recomputing
the check digit from the first 10 characters with the letter/digit value map
and the `2^i` weight, mod 11 then mod 10, reproduces that 11th character
(both as a character via `Nat.digitChar` and as its decoded numeric value). -/
theorem C1_check_digit_round_trip (l1 l2 l3 : Char) (serial : Nat)
    (hs : 100000 ≤ serial ∧ serial ≤ 999999) :
    (generate_container_number l1 l2 l3 serial).length = 11 ∧
    (generate_container_number l1 l2 l3 serial).data.drop 10 =
      [Nat.digitChar (checkDigit
        ((generate_container_number l1 l2 l3 serial).data.take 10))] ∧
    isDecDigit (Nat.digitChar (checkDigit
      ((generate_container_number l1 l2 l3 serial).data.take 10))) ∧
    charValue (Nat.digitChar (checkDigit
        ((generate_container_number l1 l2 l3 serial).data.take 10))) =
      checkDigit ((generate_container_number l1 l2 l3 serial).data.take 10) := by
  have hlen6 : (natChars serial).length = 6 := by
    have := natChars_length 5 serial (by norm_num; omega) (by norm_num; omega)
    simpa using this
  have hBlen : ([l1, l2, l3, 'U'] ++ natChars serial).length = 10 := by
    simp [hlen6]
  have hdata := generate_container_number_data l1 l2 l3 serial
  have hcdlt := checkDigit_lt_10 ([l1, l2, l3, 'U'] ++ natChars serial)
  have hone : natChars (checkDigit ([l1, l2, l3, 'U'] ++ natChars serial)) =
      [Nat.digitChar (checkDigit ([l1, l2, l3, 'U'] ++ natChars serial))] :=
    natChars_lt _ hcdlt
  have htake : (generate_container_number l1 l2 l3 serial).data.take 10 =
      [l1, l2, l3, 'U'] ++ natChars serial := by
    rw [hdata, ← hBlen, List.take_left]
  have hdrop : (generate_container_number l1 l2 l3 serial).data.drop 10 =
      [Nat.digitChar (checkDigit ([l1, l2, l3, 'U'] ++ natChars serial))] := by
    rw [hdata, ← hBlen, List.drop_left, hone]
  refine ⟨?_, ?_, ?_, ?_⟩
  · show (generate_container_number l1 l2 l3 serial).data.length = 11
    rw [hdata, hone]
    simp [hlen6]
  · rw [htake, hdrop]
  · rw [htake]
    exact digitChar_isDecDigit _ (checkDigit_lt_10 _)
  · rw [htake]
    exact charValue_digitChar _ (checkDigit_lt_10 _)

/-- Witness for C1 at the concrete input `ABCU123456`. -/
theorem C1_check_digit_round_trip_witness :
    (100000 ≤ 123456 ∧ 123456 ≤ 999999) ∧
    ((generate_container_number 'A' 'B' 'C' 123456).length = 11 ∧
    (generate_container_number 'A' 'B' 'C' 123456).data.drop 10 =
      [Nat.digitChar (checkDigit
        ((generate_container_number 'A' 'B' 'C' 123456).data.take 10))] ∧
    isDecDigit (Nat.digitChar (checkDigit
      ((generate_container_number 'A' 'B' 'C' 123456).data.take 10))) ∧
    charValue (Nat.digitChar (checkDigit
        ((generate_container_number 'A' 'B' 'C' 123456).data.take 10))) =
      checkDigit ((generate_container_number 'A' 'B' 'C' 123456).data.take 10)) :=
  ⟨by decide, C1_check_digit_round_trip 'A' 'B' 'C' 123456 (by decide)⟩

/-! ## Lookup seeding lemmas -/

theorem insertLookup_of_mem (t : List (Nat × String)) (i : Nat) (name : String)
    (h : name ∈ t.map (fun r => r.2)) : insertLookup t i name = (t, i) := by
  simp [insertLookup, h]

theorem insertLookups_of_mem :
    ∀ (names : List String) (t : List (Nat × String)) (i : Nat),
      (∀ n ∈ names, n ∈ t.map (fun r => r.2)) →
      insertLookups t i names = (t, i)
  | [], t, i, _ => rfl
  | n :: ns, t, i, h => by
    simp only [insertLookups]
    rw [insertLookup_of_mem t i n (h n (by simp))]
    exact insertLookups_of_mem ns t i (fun m hm => h m (by simp [hm]))

theorem insertLookup_mem (t : List (Nat × String)) (i : Nat) (n x : String)
    (h : x ∈ t.map (fun r => r.2) ∨ x = n) :
    x ∈ (insertLookup t i n).1.map (fun r => r.2) := by
  unfold insertLookup
  by_cases hm : n ∈ t.map (fun r => r.2)
  · simp only [if_pos hm]
    rcases h with h | h
    · exact h
    · subst h; exact hm
  · simp only [if_neg hm]
    rcases h with h | h
    · simp [h]
    · subst h; simp

theorem insertLookups_mem :
    ∀ (names : List String) (t : List (Nat × String)) (i : Nat) (x : String),
      x ∈ t.map (fun r => r.2) ∨ x ∈ names →
      x ∈ (insertLookups t i names).1.map (fun r => r.2)
  | [], t, i, x, h => by
    rcases h with h | h
    · simpa [insertLookups] using h
    · simp at h
  | n :: ns, t, i, x, h => by
    simp only [insertLookups]
    apply insertLookups_mem ns
    rcases h with h | h
    · exact Or.inl (insertLookup_mem t i n x (Or.inl h))
    · rcases List.mem_cons.mp h with h | h
      · exact Or.inl (insertLookup_mem t i n x (Or.inr h))
      · exact Or.inr h

theorem populateLookupDb_fixed (d : DB)
    (h1 : ∀ n ∈ shipmentStatuses, n ∈ d.shipmentStatus.map (fun r => r.2))
    (h2 : ∀ n ∈ containerTypes, n ∈ d.containerType.map (fun r => r.2))
    (h3 : ∀ n ∈ berthStatuses, n ∈ d.berthStatus.map (fun r => r.2)) :
    populateLookupDb d = d := by
  simp only [populateLookupDb]
  rw [insertLookups_of_mem shipmentStatuses d.shipmentStatus d.nextId h1]
  rw [insertLookups_of_mem containerTypes d.containerType d.nextId h2]
  rw [insertLookups_of_mem berthStatuses d.berthStatus d.nextId h3]

theorem populateLookupDb_eq (db : DB) :
    populateLookupDb db =
      { db with
        shipmentStatus := (insertLookups db.shipmentStatus db.nextId shipmentStatuses).1
        containerType := (insertLookups db.containerType
          (insertLookups db.shipmentStatus db.nextId shipmentStatuses).2 containerTypes).1
        berthStatus := (insertLookups db.berthStatus
          (insertLookups db.containerType
            (insertLookups db.shipmentStatus db.nextId shipmentStatuses).2 containerTypes).2
          berthStatuses).1
        nextId := (insertLookups db.berthStatus
          (insertLookups db.containerType
            (insertLookups db.shipmentStatus db.nextId shipmentStatuses).2 containerTypes).2
          berthStatuses).2 } := rfl

set_option maxHeartbeats 2000000 in
theorem populateLookupDb_idem (db : DB) :
    populateLookupDb (populateLookupDb db) = populateLookupDb db := by
  rw [populateLookupDb_eq db]
  apply populateLookupDb_fixed
  · intro n hn
    exact insertLookups_mem _ _ _ n (Or.inr hn)
  · intro n hn
    exact insertLookups_mem _ _ _ n (Or.inr hn)
  · intro n hn
    exact insertLookups_mem _ _ _ n (Or.inr hn)

theorem populateLookupDb_of_empty (db : DB) (h1 : db.shipmentStatus = [])
    (h2 : db.containerType = []) (h3 : db.berthStatus = []) :
    populateLookupDb db =
      { db with
        shipmentStatus := shipmentStatusRows db.nextId
        containerType := containerTypeRows (db.nextId + 5)
        berthStatus := berthStatusRows (db.nextId + 9)
        nextId := db.nextId + 12 } := by
  cases db with
  | mk ss ct bs c v b sh cont nid =>
    simp only at h1 h2 h3
    subst h1; subst h2; subst h3
    rfl

/-- C7: running the lookup seeder twice in succession from empty enumeration
tables produces exactly the fixed rows each time (5 shipment statuses, 4
container types, 3 berth statuses, in source order, without duplicates), and
the second invocation is the identity: re-running neither creates rows nor
fails (the insert-if-absent upserts are total). -/
theorem C7_lookup_seeding_idempotent (s : ConnState)
    (h1 : s.current.shipmentStatus = []) (h2 : s.current.containerType = [])
    (h3 : s.current.berthStatus = []) :
    (populate_lookup_tables s).current.shipmentStatus.map (fun r => r.2) =
      shipmentStatuses ∧
    (populate_lookup_tables s).current.containerType.map (fun r => r.2) =
      containerTypes ∧
    (populate_lookup_tables s).current.berthStatus.map (fun r => r.2) =
      berthStatuses ∧
    (populate_lookup_tables s).current.shipmentStatus.length = 5 ∧
    (populate_lookup_tables s).current.containerType.length = 4 ∧
    (populate_lookup_tables s).current.berthStatus.length = 3 ∧
    (populate_lookup_tables s).current.shipmentStatus.Nodup ∧
    (populate_lookup_tables s).current.containerType.Nodup ∧
    (populate_lookup_tables s).current.berthStatus.Nodup ∧
    populate_lookup_tables (populate_lookup_tables s) = populate_lookup_tables s := by
  have hcur : (populate_lookup_tables s).current = populateLookupDb s.current := rfl
  have hrows := populateLookupDb_of_empty s.current h1 h2 h3
  refine ⟨?_, ?_, ?_, ?_, ?_, ?_, ?_, ?_, ?_, ?_⟩
  · rw [hcur, hrows]; rfl
  · rw [hcur, hrows]; rfl
  · rw [hcur, hrows]; rfl
  · rw [hcur, hrows]; rfl
  · rw [hcur, hrows]; rfl
  · rw [hcur, hrows]; rfl
  · rw [hcur, hrows]
    show (shipmentStatusRows s.current.nextId).Nodup
    simp [shipmentStatusRows]
  · rw [hcur, hrows]
    show (containerTypeRows (s.current.nextId + 5)).Nodup
    simp [containerTypeRows]
  · rw [hcur, hrows]
    show (berthStatusRows (s.current.nextId + 9)).Nodup
    simp [berthStatusRows]
  · show ConnState.commit
      { ConnState.commit { s with current := populateLookupDb s.current } with
        current := populateLookupDb (ConnState.commit
          { s with current := populateLookupDb s.current }).current } = _
    simp [ConnState.commit, populateLookupDb_idem]
    rfl

/-- Witness for C7 starting from the empty database state. -/
theorem C7_lookup_seeding_idempotent_witness :
    (ConnState.mk emptyDB emptyDB).current.shipmentStatus = [] ∧
    (ConnState.mk emptyDB emptyDB).current.containerType = [] ∧
    (ConnState.mk emptyDB emptyDB).current.berthStatus = [] ∧
    ((populate_lookup_tables (ConnState.mk emptyDB emptyDB)).current.shipmentStatus.map
        (fun r => r.2) = shipmentStatuses ∧
     (populate_lookup_tables (ConnState.mk emptyDB emptyDB)).current.containerType.map
        (fun r => r.2) = containerTypes ∧
     (populate_lookup_tables (ConnState.mk emptyDB emptyDB)).current.berthStatus.map
        (fun r => r.2) = berthStatuses ∧
     (populate_lookup_tables (ConnState.mk emptyDB emptyDB)).current.shipmentStatus.length = 5 ∧
     (populate_lookup_tables (ConnState.mk emptyDB emptyDB)).current.containerType.length = 4 ∧
     (populate_lookup_tables (ConnState.mk emptyDB emptyDB)).current.berthStatus.length = 3 ∧
     (populate_lookup_tables (ConnState.mk emptyDB emptyDB)).current.shipmentStatus.Nodup ∧
     (populate_lookup_tables (ConnState.mk emptyDB emptyDB)).current.containerType.Nodup ∧
     (populate_lookup_tables (ConnState.mk emptyDB emptyDB)).current.berthStatus.Nodup ∧
     populate_lookup_tables (populate_lookup_tables (ConnState.mk emptyDB emptyDB)) =
       populate_lookup_tables (ConnState.mk emptyDB emptyDB)) :=
  ⟨rfl, rfl, rfl,
   C7_lookup_seeding_idempotent (ConnState.mk emptyDB emptyDB) rfl rfl rfl⟩

/-! ## Stage lemmas: clients and vessels -/

theorem clientsGo_spec (R : Rands) :
    ∀ (companies : List String) (k : Nat) (db : DB) (acc : List Nat),
      (clientsGo R companies k db acc).1.length = acc.length + companies.length ∧
      (clientsGo R companies k db acc).2.client.length =
        db.client.length + companies.length ∧
      (clientsGo R companies k db acc).2.vessel = db.vessel ∧
      (clientsGo R companies k db acc).2.berth = db.berth ∧
      (clientsGo R companies k db acc).2.shipment = db.shipment ∧
      (clientsGo R companies k db acc).2.container = db.container ∧
      (clientsGo R companies k db acc).2.shipmentStatus = db.shipmentStatus ∧
      (clientsGo R companies k db acc).2.containerType = db.containerType ∧
      (clientsGo R companies k db acc).2.berthStatus = db.berthStatus
  | [], k, db, acc => by simp [clientsGo]
  | c :: cs, k, db, acc => by
    have ih := clientsGo_spec R cs (k + 1)
      (db.insClient ⟨c, (R.clientContact k).1, (R.clientContact k).2.1,
        (R.clientContact k).2.2⟩).2
      (acc ++ [(db.insClient ⟨c, (R.clientContact k).1, (R.clientContact k).2.1,
        (R.clientContact k).2.2⟩).1])
    obtain ⟨i1, i2, i3, i4, i5, i6, i7, i8, i9⟩ := ih
    refine ⟨?_, ?_, ?_, ?_, ?_, ?_, ?_, ?_, ?_⟩
    · show (clientsGo R cs (k + 1) _ _).1.length = acc.length + (c :: cs).length
      rw [i1]
      simp [DB.insClient]
      omega
    · show (clientsGo R cs (k + 1) _ _).2.client.length =
        db.client.length + (c :: cs).length
      rw [i2]
      simp [DB.insClient]
      omega
    · exact i3
    · exact i4
    · exact i5
    · exact i6
    · exact i7
    · exact i8
    · exact i9

theorem vesselsGo_spec (R : Rands) :
    ∀ (m k : Nat) (db : DB) (acc : List Nat),
      (vesselsGo R m k db acc).1.length = acc.length + m ∧
      (vesselsGo R m k db acc).2.vessel.length = db.vessel.length + m ∧
      (vesselsGo R m k db acc).2.client = db.client ∧
      (vesselsGo R m k db acc).2.berth = db.berth ∧
      (vesselsGo R m k db acc).2.shipment = db.shipment ∧
      (vesselsGo R m k db acc).2.container = db.container ∧
      (vesselsGo R m k db acc).2.shipmentStatus = db.shipmentStatus ∧
      (vesselsGo R m k db acc).2.containerType = db.containerType ∧
      (vesselsGo R m k db acc).2.berthStatus = db.berthStatus
  | 0, k, db, acc => by simp [vesselsGo]
  | m + 1, k, db, acc => by
    obtain ⟨i1, i2, i3, i4, i5, i6, i7, i8, i9⟩ := vesselsGo_spec R m (k + 1) _ _
    refine ⟨?_, ?_, ?_, ?_, ?_, ?_, ?_, ?_, ?_⟩
    · show (vesselsGo R m (k + 1) _ _).1.length = acc.length + (m + 1)
      rw [i1]
      simp [DB.insVessel]
      omega
    · show (vesselsGo R m (k + 1) _ _).2.vessel.length = db.vessel.length + (m + 1)
      rw [i2]
      simp [DB.insVessel]
      omega
    · exact i3
    · exact i4
    · exact i5
    · exact i6
    · exact i7
    · exact i8
    · exact i9

/-! ## Stage lemmas: berths -/

theorem berthsGo_cons (sd : String → Option Nat) (vessel_ids : List Nat) (o a : Nat)
    (ho : sd "OCCUPIED" = some o) (ha : sd "AVAILABLE" = some a)
    (i : Nat) (ns : List Nat) (db : DB) (acc : List Nat) :
    berthsGo sd vessel_ids (i :: ns) db acc =
      berthsGo sd vessel_ids ns
        (db.insBerth (mkBerthRow o a vessel_ids i)).2 (acc ++ [db.nextId]) := by
  by_cases hi : i ≤ vessel_ids.length
  · simp [berthsGo, hi, ho, mkBerthRow, DB.insBerth]
  · simp [berthsGo, hi, ha, mkBerthRow, DB.insBerth]

theorem berthsGo_spec (sd : String → Option Nat) (vessel_ids : List Nat) (o a : Nat)
    (ho : sd "OCCUPIED" = some o) (ha : sd "AVAILABLE" = some a) :
    ∀ (ns : List Nat) (db : DB) (acc : List Nat),
      ∃ ids db', berthsGo sd vessel_ids ns db acc = some (ids, db') ∧
        db'.berth.map (fun r => r.2) =
          db.berth.map (fun r => r.2) ++ ns.map (mkBerthRow o a vessel_ids) ∧
        db'.berth.length = db.berth.length + ns.length ∧
        ids.length = acc.length + ns.length ∧
        db'.client = db.client ∧ db'.vessel = db.vessel ∧
        db'.shipment = db.shipment ∧ db'.container = db.container ∧
        db'.shipmentStatus = db.shipmentStatus ∧
        db'.containerType = db.containerType ∧ db'.berthStatus = db.berthStatus
  | [], db, acc =>
    ⟨acc, db, rfl, by simp, by simp, by simp, rfl, rfl, rfl, rfl, rfl, rfl, rfl⟩
  | i :: ns, db, acc => by
    rw [berthsGo_cons sd vessel_ids o a ho ha i ns db acc]
    obtain ⟨ids, db', heq, hmap, hblen, hilen, h5, h6, h7, h8, h9, h10, h11⟩ :=
      berthsGo_spec sd vessel_ids o a ho ha ns
        (db.insBerth (mkBerthRow o a vessel_ids i)).2 (acc ++ [db.nextId])
    refine ⟨ids, db', heq, ?_, ?_, ?_, h5, h6, h7, h8, h9, h10, h11⟩
    · rw [hmap]
      simp [DB.insBerth]
    · rw [hblen]
      simp [DB.insBerth]
      omega
    · rw [hilen]
      simp
      omega

theorem countP_le_range' (L : Nat) :
    ∀ (n s : Nat),
      (List.range' s n).countP (fun i => decide (i ≤ L)) = min n (L + 1 - s)
  | 0, s => by simp
  | n + 1, s => by
    rw [List.range'_succ, List.countP_cons, countP_le_range' L n (s + 1)]
    by_cases h : s ≤ L <;> simp [h] <;> omega

/-- C6: the berth stage succeeds and creates exactly 20 berths numbered
`B001`..`B020` in order; a berth at 0-based position `j` carries the OCCUPIED
status id exactly when `j + 1 ≤ `vessel count; the number of OCCUPIED berths
is `min 20 (vessel count)`; every non-OCCUPIED berth carries the AVAILABLE
status id and no vessel reference; and the vessel references of the OCCUPIED
berths are pairwise distinct (given distinct vessel ids, as the store's
primary keys are). -/
theorem C6_populate_berths (db : DB) (vessel_ids : List Nat) (o a : Nat)
    (ho : dictOf db.berthStatus "OCCUPIED" = some o)
    (ha : dictOf db.berthStatus "AVAILABLE" = some a)
    (hoa : o ≠ a)
    (hnd : vessel_ids.Nodup)
    (hb : db.berth = []) :
    ∃ ids db', populate_berths db vessel_ids = some (ids, db') ∧
      db'.berth.length = 20 ∧
      db'.berth.map (fun r => r.2.berth_number) =
        ["B001", "B002", "B003", "B004", "B005", "B006", "B007", "B008", "B009",
         "B010", "B011", "B012", "B013", "B014", "B015", "B016", "B017", "B018",
         "B019", "B020"] ∧
      (∀ j b, db'.berth.get? j = some b →
        (b.2.berth_status_id = o ↔ j + 1 ≤ vessel_ids.length)) ∧
      db'.berth.countP (fun r => decide (r.2.berth_status_id = o)) =
        min 20 vessel_ids.length ∧
      (∀ r ∈ db'.berth, r.2.berth_status_id ≠ o →
        r.2.berth_status_id = a ∧ r.2.vessel_id = none) ∧
      ((db'.berth.filter (fun r => decide (r.2.berth_status_id = o))).map
        (fun r => r.2.vessel_id)).Nodup := by
  obtain ⟨ids, db', heq, hmap, hblen, _, _, _, _, _, _, _, _⟩ :=
    berthsGo_spec (dictOf db.berthStatus) vessel_ids o a ho ha
      (List.range' 1 20) db []
  rw [hb] at hmap hblen
  simp only [List.map_nil, List.nil_append, List.length_nil, Nat.zero_add] at hmap hblen
  have hstat : ∀ i, (mkBerthRow o a vessel_ids i).berth_status_id =
      if i ≤ vessel_ids.length then o else a := fun _ => rfl
  refine ⟨ids, db', heq, ?_, ?_, ?_, ?_, ?_, ?_⟩
  · simpa using hblen
  · have e : db'.berth.map (fun r => r.2.berth_number) =
        (db'.berth.map (fun r => r.2)).map (fun b => b.berth_number) := by
      simp [List.map_map]
    rw [e, hmap]
    rfl
  · intro j b hjb
    have hj2 : (db'.berth.map (fun r => r.2)).get? j = some b.2 := by
      rw [List.get?_map, hjb]
      rfl
    rw [hmap] at hj2
    have hj20 : j < 20 := by
      have := List.get?_eq_some.mp hj2
      obtain ⟨hlt, _⟩ := this
      simpa using hlt
    have hr : (List.range' 1 20).get? j = some (1 + j) := by
      rw [List.get?_eq_getElem?]
      simpa using List.getElem?_range' 1 1 hj20
    rw [List.get?_map, hr] at hj2
    have hb2 : b.2 = mkBerthRow o a vessel_ids (1 + j) := by
      simpa using hj2.symm
    rw [hb2, hstat]
    by_cases hij : 1 + j ≤ vessel_ids.length
    · rw [if_pos hij]
      exact iff_of_true rfl (by omega)
    · rw [if_neg hij]
      exact iff_of_false (fun h => hoa h.symm) (by omega)
  · have e1 : db'.berth.countP (fun r => decide (r.2.berth_status_id = o)) =
        (db'.berth.map (fun r => r.2)).countP
          (fun b => decide (b.berth_status_id = o)) := by
      rw [List.countP_map]
      rfl
    rw [e1, hmap, List.countP_map]
    have e2 : List.countP
        ((fun b => decide (b.berth_status_id = o)) ∘ mkBerthRow o a vessel_ids)
        (List.range' 1 20) =
        List.countP (fun i => decide (i ≤ vessel_ids.length)) (List.range' 1 20) := by
      rw [List.countP_eq_length_filter, List.countP_eq_length_filter]
      congr 1
      apply List.filter_congr
      intro i _
      by_cases hi : i ≤ vessel_ids.length <;>
        simp [Function.comp, mkBerthRow, hi, hoa, Ne.symm hoa]
    rw [e2, countP_le_range']
    omega
  · intro r hr hno
    have hr2 : r.2 ∈ (List.range' 1 20).map (mkBerthRow o a vessel_ids) := by
      rw [← hmap]
      exact List.mem_map_of_mem (fun x => x.2) hr
    obtain ⟨i, _, hmk⟩ := List.mem_map.mp hr2
    by_cases hiL : i ≤ vessel_ids.length
    · exact absurd (by rw [← hmk, hstat, if_pos hiL]) hno
    · constructor
      · rw [← hmk, hstat, if_neg hiL]
      · rw [← hmk]
        show (if i ≤ vessel_ids.length then vessel_ids.get? (i - 1) else none) = none
        rw [if_neg hiL]
  · have e1 : (db'.berth.filter (fun r => decide (r.2.berth_status_id = o))).map
        (fun r => r.2.vessel_id) =
        (((db'.berth.map (fun r => r.2)).filter
          (fun b => decide (b.berth_status_id = o))).map (fun b => b.vessel_id)) := by
      rw [List.filter_map, List.map_map]
      rfl
    rw [e1, hmap, List.filter_map, List.map_map]
    have e2 : List.filter
        ((fun b => decide (b.berth_status_id = o)) ∘ mkBerthRow o a vessel_ids)
        (List.range' 1 20) =
        List.filter (fun i => decide (i ≤ vessel_ids.length)) (List.range' 1 20) := by
      apply List.filter_congr
      intro i _
      by_cases hi : i ≤ vessel_ids.length <;>
        simp [Function.comp, mkBerthRow, hi, hoa, Ne.symm hoa]
    rw [e2]
    have e3 : List.map
        ((fun b => b.vessel_id) ∘ mkBerthRow o a vessel_ids)
        (List.filter (fun i => decide (i ≤ vessel_ids.length)) (List.range' 1 20)) =
        List.map (fun i => vessel_ids.get? (i - 1))
          (List.filter (fun i => decide (i ≤ vessel_ids.length)) (List.range' 1 20)) := by
      apply List.map_congr_left
      intro i hi
      have := (List.mem_filter.mp hi).2
      have hiL : i ≤ vessel_ids.length := by simpa using this
      show (if i ≤ vessel_ids.length then vessel_ids.get? (i - 1) else none) = _
      rw [if_pos hiL]
    rw [e3]
    apply List.Nodup.map_on
    · intro x hx y hy hxy
      obtain ⟨hxr, hxL⟩ := List.mem_filter.mp hx
      obtain ⟨hyr, hyL⟩ := List.mem_filter.mp hy
      have hxL : x ≤ vessel_ids.length := by simpa using hxL
      have hyL : y ≤ vessel_ids.length := by simpa using hyL
      have hx1 : 1 ≤ x := by
        obtain ⟨i, _, hxe⟩ := List.mem_range'.mp hxr
        omega
      have hy1 : 1 ≤ y := by
        obtain ⟨i, _, hye⟩ := List.mem_range'.mp hyr
        omega
      have hxlt : x - 1 < vessel_ids.length := by omega
      have hxy2 : vessel_ids[x - 1]? = vessel_ids[y - 1]? := by
        simpa [List.get?_eq_getElem?] using hxy
      have := List.getElem?_inj hxlt hnd hxy2
      omega
    · exact (List.nodup_range' 1 20).filter _

/-- Witness for C6: the seeded `BerthStatus` table (ids 0..2) and two vessels
with ids 100 and 101. -/
theorem C6_populate_berths_witness :
    (dictOf ({ emptyDB with berthStatus := berthStatusRows 0 } : DB).berthStatus
        "OCCUPIED" = some 1 ∧
     dictOf ({ emptyDB with berthStatus := berthStatusRows 0 } : DB).berthStatus
        "AVAILABLE" = some 0 ∧
     (1 : Nat) ≠ 0 ∧
     ([100, 101] : List Nat).Nodup ∧
     ({ emptyDB with berthStatus := berthStatusRows 0 } : DB).berth = []) ∧
    (∃ ids db',
      populate_berths { emptyDB with berthStatus := berthStatusRows 0 } [100, 101] =
        some (ids, db') ∧
      db'.berth.length = 20 ∧
      db'.berth.map (fun r => r.2.berth_number) =
        ["B001", "B002", "B003", "B004", "B005", "B006", "B007", "B008", "B009",
         "B010", "B011", "B012", "B013", "B014", "B015", "B016", "B017", "B018",
         "B019", "B020"] ∧
      (∀ j b, db'.berth.get? j = some b →
        (b.2.berth_status_id = 1 ↔ j + 1 ≤ ([100, 101] : List Nat).length)) ∧
      db'.berth.countP (fun r => decide (r.2.berth_status_id = 1)) =
        min 20 ([100, 101] : List Nat).length ∧
      (∀ r ∈ db'.berth, r.2.berth_status_id ≠ 1 →
        r.2.berth_status_id = 0 ∧ r.2.vessel_id = none) ∧
      ((db'.berth.filter (fun r => decide (r.2.berth_status_id = 1))).map
        (fun r => r.2.vessel_id)).Nodup) :=
  ⟨⟨by decide, by decide, by decide, by decide, rfl⟩,
   C6_populate_berths { emptyDB with berthStatus := berthStatusRows 0 } [100, 101]
     1 0 (by decide) (by decide) (by decide) (by decide) rfl⟩

/-! ## Stage lemmas: shipments -/

theorem pick_mem (l : List String) (r : Nat) (h : l ≠ []) : pick l r ∈ l := by
  have hlen : 0 < l.length := List.length_pos.mpr h
  have hlt : r % l.length < l.length := Nat.mod_lt _ hlen
  show l.getD (r % l.length) "" ∈ l
  rw [List.getD_eq_getElem?_getD, List.getElem?_eq_getElem hlt]
  exact List.getElem_mem hlt

theorem randomInt_le (lo hi r : Nat) (h : lo ≤ hi) :
    lo ≤ randomInt lo hi r ∧ randomInt lo hi r ≤ hi := by
  unfold randomInt
  have hm : r % (hi - lo + 1) < hi - lo + 1 := Nat.mod_lt _ (by omega)
  omega

theorem shipmentsGo1_step (sd : String → Option Nat) (ports : List String)
    (R : Rands) (client_id : Nat) (hp : ¬ ports.length < 2) (m : Nat) (db : DB)
    (acc : List Nat) (sid : Nat)
    (hsid : sd (pick status_options (R.shipStatus acc.length)) = some sid) :
    shipmentsGo1 sd ports R client_id (m + 1) db acc =
      shipmentsGo1 sd ports R client_id m
        (db.insShipment (shipRow R client_id sid acc.length)).2
        (acc ++ [db.nextId]) := by
  simp only [shipmentsGo1, if_neg hp, hsid]
  rfl

theorem shipmentsGo1_spec (sd : String → Option Nat) (ports : List String)
    (R : Rands) (client_id : Nat) (hp : ¬ ports.length < 2)
    (hsd : ∀ nm ∈ status_options, (sd nm).isSome) :
    ∀ (m : Nat) (db : DB) (acc : List Nat),
      ∃ ids db', shipmentsGo1 sd ports R client_id m db acc = some (ids, db') ∧
        ids.length = acc.length + m ∧
        db'.shipment.length = db.shipment.length + m ∧
        (∀ r ∈ db'.shipment, r ∈ db.shipment ∨
          (∃ k sid, r.2 = shipRow R client_id sid k ∧
            sid ∈ status_options.filterMap sd)) ∧
        db'.client = db.client ∧ db'.vessel = db.vessel ∧ db'.berth = db.berth ∧
        db'.container = db.container ∧ db'.shipmentStatus = db.shipmentStatus ∧
        db'.containerType = db.containerType ∧ db'.berthStatus = db.berthStatus
  | 0, db, acc =>
    ⟨acc, db, rfl, by simp, by simp, fun r hr => Or.inl hr,
     rfl, rfl, rfl, rfl, rfl, rfl, rfl⟩
  | m + 1, db, acc => by
    have hname := pick_mem status_options (R.shipStatus acc.length)
      (by simp [status_options])
    obtain ⟨sid, hsid⟩ := Option.isSome_iff_exists.mp (hsd _ hname)
    rw [shipmentsGo1_step sd ports R client_id hp m db acc sid hsid]
    obtain ⟨ids, db', heq, h1, h2, h3, h4, h5, h6, h7, h8, h9, h10⟩ :=
      shipmentsGo1_spec sd ports R client_id hp hsd m
        (db.insShipment (shipRow R client_id sid acc.length)).2
        (acc ++ [db.nextId])
    refine ⟨ids, db', heq, ?_, ?_, ?_, h4, h5, h6, h7, h8, h9, h10⟩
    · rw [h1]
      simp
      omega
    · rw [h2]
      simp [DB.insShipment]
      omega
    · intro r hr
      rcases h3 r hr with h | h
      · have h' : r ∈ db.shipment ++
            [(db.nextId, shipRow R client_id sid acc.length)] := h
        rcases List.mem_append.mp h' with h2' | h2'
        · exact Or.inl h2'
        · right
          have he : r = (db.nextId, shipRow R client_id sid acc.length) := by
            simpa using h2'
          exact ⟨acc.length, sid, by rw [he],
            List.mem_filterMap.mpr ⟨_, hname, hsid⟩⟩
      · exact Or.inr h

theorem shipmentsGo2_spec (sd : String → Option Nat) (ports : List String)
    (R : Rands) (hp : ¬ ports.length < 2)
    (hsd : ∀ nm ∈ status_options, (sd nm).isSome) :
    ∀ (cs : List Nat) (j : Nat) (db : DB) (acc : List Nat),
      ∃ ids db' t, shipmentsGo2 sd ports R cs j db acc = some (ids, db') ∧
        ids.length = acc.length + t ∧
        db'.shipment.length = db.shipment.length + t ∧
        2 * cs.length ≤ t ∧ t ≤ 5 * cs.length ∧
        (∀ r ∈ db'.shipment, r ∈ db.shipment ∨
          (∃ c k sid, r.2 = shipRow R c sid k ∧
            sid ∈ status_options.filterMap sd)) ∧
        db'.client = db.client ∧ db'.vessel = db.vessel ∧ db'.berth = db.berth ∧
        db'.container = db.container ∧ db'.shipmentStatus = db.shipmentStatus ∧
        db'.containerType = db.containerType ∧ db'.berthStatus = db.berthStatus
  | [], j, db, acc =>
    ⟨acc, db, 0, rfl, by simp, by simp, by simp, by simp,
     fun r hr => Or.inl hr, rfl, rfl, rfl, rfl, rfl, rfl, rfl⟩
  | c :: cs, j, db, acc => by
    obtain ⟨ids1, db1, heq1, g1, g2, g3, g4, g5, g6, g7, g8, g9, g10⟩ :=
      shipmentsGo1_spec sd ports R c hp hsd (randomInt 2 5 (R.shipCount j)) db acc
    obtain ⟨ids2, db2, t, heq2, k1, k2, k3, k4, k5, k6, k7, k8, k9, k10, k11, k12⟩ :=
      shipmentsGo2_spec sd ports R hp hsd cs (j + 1) db1 ids1
    have hri := randomInt_le 2 5 (R.shipCount j) (by omega)
    refine ⟨ids2, db2, randomInt 2 5 (R.shipCount j) + t, ?_, ?_, ?_, ?_, ?_, ?_,
      k6.trans g4, k7.trans g5, k8.trans g6, k9.trans g7, k10.trans g8,
      k11.trans g9, k12.trans g10⟩
    · show (match shipmentsGo1 sd ports R c (randomInt 2 5 (R.shipCount j)) db acc
          with
        | none => none
        | some p => shipmentsGo2 sd ports R cs (j + 1) p.2 p.1) = some (ids2, db2)
      rw [heq1]
      exact heq2
    · rw [k1, g1]
      omega
    · rw [k2, g2]
      omega
    · simp only [List.length_cons]
      omega
    · simp only [List.length_cons]
      omega
    · intro r hr
      rcases k5 r hr with h | h
      · rcases g3 r h with h' | ⟨k, sid, hrow, hmem⟩
        · exact Or.inl h'
        · exact Or.inr ⟨c, k, sid, hrow, hmem⟩
      · exact Or.inr h

/-- C5: every shipment generated by the shipment stage has distinct origin
and destination: the stage draws the pair with the without-repetition
two-element sample (`unique=True`), whose two components are distinct by
contract, and copies it verbatim into the row. Hypotheses: the port list has
at least the 2 entries the sample needs, the status dict resolves the four
drawn names, and the shipment table starts empty (as after reset). -/
theorem C5_origin_ne_destination (db : DB) (client_ids : List Nat)
    (ports : List String) (R : Rands)
    (hp : 2 ≤ ports.length)
    (hsd : ∀ nm ∈ status_options, (dictOf db.shipmentStatus nm).isSome)
    (hR : ∀ k, (R.shipPorts k).1 ≠ (R.shipPorts k).2)
    (hempty : db.shipment = []) :
    ∃ ids db', populate_shipments db client_ids ports R = some (ids, db') ∧
      ∀ r ∈ db'.shipment, r.2.origin ≠ r.2.destination := by
  obtain ⟨ids, db', t, heq, _, _, _, _, hprop, _, _, _, _, _, _, _⟩ :=
    shipmentsGo2_spec (dictOf db.shipmentStatus) ports R (by omega) hsd
      client_ids 0 db []
  refine ⟨ids, db', heq, ?_⟩
  intro r hr
  rcases hprop r hr with h | ⟨c, k, sid, hrow, _⟩
  · rw [hempty] at h
    simp at h
  · rw [hrow]
    exact hR k

/-- Witness for C5: one client, the fallback ports, the all-zero draws. -/
theorem C5_origin_ne_destination_witness :
    (2 ≤ fallbackPorts.length ∧
     (∀ nm ∈ status_options,
       (dictOf ({ emptyDB with shipmentStatus := shipmentStatusRows 0 } : DB).shipmentStatus
         nm).isSome) ∧
     (∀ k, (R0.shipPorts k).1 ≠ (R0.shipPorts k).2) ∧
     ({ emptyDB with shipmentStatus := shipmentStatusRows 0 } : DB).shipment = []) ∧
    (∃ ids db',
      populate_shipments { emptyDB with shipmentStatus := shipmentStatusRows 0 }
        [50] fallbackPorts R0 = some (ids, db') ∧
      ∀ r ∈ db'.shipment, r.2.origin ≠ r.2.destination) :=
  ⟨⟨by decide, by decide,
    by
      intro k
      show ("Shanghai" : String) ≠ "Singapore"
      decide,
    rfl⟩,
   C5_origin_ne_destination { emptyDB with shipmentStatus := shipmentStatusRows 0 }
     [50] fallbackPorts R0 (by decide) (by decide)
     (by
       intro k
       show ("Shanghai" : String) ≠ "Singapore"
       decide)
     rfl⟩

/-- C9: the shipment stage draws statuses only from the four-name pool
`status_options`; against the seeded five-row `ShipmentStatus` table (ids
`n`..`n+4` for PENDING, IN_TRANSIT, AWAITING_CUSTOMS, CLEARED, DELIVERED),
every generated shipment's status id lies in `{n, n+1, n+2, n+3}` and is
never `n+4`, the id of the terminal DELIVERED status, although that row
exists in the table. -/
theorem C9_status_never_delivered (db : DB) (client_ids : List Nat)
    (ports : List String) (R : Rands) (n : Nat)
    (htable : db.shipmentStatus = shipmentStatusRows n)
    (hp : 2 ≤ ports.length)
    (hempty : db.shipment = []) :
    ∃ ids db', populate_shipments db client_ids ports R = some (ids, db') ∧
      "DELIVERED" ∈ db.shipmentStatus.map (fun r => r.2) ∧
      ∀ r ∈ db'.shipment,
        r.2.shipment_status_id ∈ [n, n + 1, n + 2, n + 3] ∧
        r.2.shipment_status_id ≠ n + 4 := by
  have hsd : ∀ nm ∈ status_options, (dictOf db.shipmentStatus nm).isSome := by
    rw [htable]
    intro nm hnm
    fin_cases hnm <;> rfl
  have hfm : status_options.filterMap (dictOf (shipmentStatusRows n)) =
      [n, n + 1, n + 2, n + 3] := rfl
  obtain ⟨ids, db', t, heq, _, _, _, _, hprop, _, _, _, _, _, _, _⟩ :=
    shipmentsGo2_spec (dictOf db.shipmentStatus) ports R (by omega) hsd
      client_ids 0 db []
  refine ⟨ids, db', heq, by rw [htable]; simp [shipmentStatusRows], ?_⟩
  intro r hr
  rcases hprop r hr with h | ⟨c, k, sid, hrow, hmem⟩
  · rw [hempty] at h
    simp at h
  · rw [htable, hfm] at hmem
    constructor
    · rw [hrow]
      exact hmem
    · rw [hrow]
      show sid ≠ n + 4
      simp at hmem
      omega

/-- Witness for C9 at table base id 0, one client, the fallback ports. -/
theorem C9_status_never_delivered_witness :
    (({ emptyDB with shipmentStatus := shipmentStatusRows 0 } : DB).shipmentStatus =
        shipmentStatusRows 0 ∧
     2 ≤ fallbackPorts.length ∧
     ({ emptyDB with shipmentStatus := shipmentStatusRows 0 } : DB).shipment = []) ∧
    (∃ ids db',
      populate_shipments { emptyDB with shipmentStatus := shipmentStatusRows 0 }
        [50] fallbackPorts R0 = some (ids, db') ∧
      "DELIVERED" ∈ ({ emptyDB with shipmentStatus := shipmentStatusRows 0 } : DB).shipmentStatus.map
        (fun r => r.2) ∧
      ∀ r ∈ db'.shipment,
        r.2.shipment_status_id ∈ [0, 0 + 1, 0 + 2, 0 + 3] ∧
        r.2.shipment_status_id ≠ 0 + 4) :=
  ⟨⟨rfl, by decide, rfl⟩,
   C9_status_never_delivered { emptyDB with shipmentStatus := shipmentStatusRows 0 }
     [50] fallbackPorts R0 0 rfl (by decide) rfl⟩

/-! ## Stage lemmas: containers -/

theorem containersGo1_step (td : String → Option Nat) (R : Rands)
    (vessel_ids : List Nat) (shipment_id m cnt : Nat) (db : DB) (tid : Nat)
    (htid : td (pick containerTypes (R.contType cnt)) = some tid) :
    containersGo1 td R vessel_ids none shipment_id (m + 1) cnt db =
      containersGo1 td R vessel_ids none shipment_id m (cnt + 1)
        (db.insContainer (contRow R vessel_ids shipment_id tid cnt)) := by
  simp only [containersGo1, htid]
  rfl

theorem containersGo1_spec (td : String → Option Nat) (R : Rands)
    (vessel_ids : List Nat) (shipment_id : Nat)
    (htd : ∀ nm ∈ containerTypes, (td nm).isSome) :
    ∀ (m cnt : Nat) (db : DB),
      ∃ db', containersGo1 td R vessel_ids none shipment_id m cnt db =
          some (cnt + m, db') ∧
        db'.container.length = db.container.length + m ∧
        (∀ c ∈ db'.container, c ∈ db.container ∨
          (∃ k tid, c = contRow R vessel_ids shipment_id tid k)) ∧
        db'.client = db.client ∧ db'.vessel = db.vessel ∧ db'.berth = db.berth ∧
        db'.shipment = db.shipment ∧ db'.shipmentStatus = db.shipmentStatus ∧
        db'.containerType = db.containerType ∧ db'.berthStatus = db.berthStatus
  | 0, cnt, db =>
    ⟨db, rfl, by simp, fun c hc => Or.inl hc, rfl, rfl, rfl, rfl, rfl, rfl, rfl⟩
  | m + 1, cnt, db => by
    have hname := pick_mem containerTypes (R.contType cnt)
      (by simp [containerTypes])
    obtain ⟨tid, htid⟩ := Option.isSome_iff_exists.mp (htd _ hname)
    rw [containersGo1_step td R vessel_ids shipment_id m cnt db tid htid]
    obtain ⟨db', heq, h1, h2, h3, h4, h5, h6, h7, h8, h9⟩ :=
      containersGo1_spec td R vessel_ids shipment_id htd m (cnt + 1)
        (db.insContainer (contRow R vessel_ids shipment_id tid cnt))
    refine ⟨db', ?_, ?_, ?_, h3, h4, h5, h6, h7, h8, h9⟩
    · have e2 : cnt + 1 + m = cnt + (m + 1) := by omega
      rw [e2] at heq
      exact heq
    · have e : (db.insContainer (contRow R vessel_ids shipment_id tid cnt)).container =
          db.container ++ [contRow R vessel_ids shipment_id tid cnt] := rfl
      rw [h1, e, List.length_append]
      simp only [List.length_cons, List.length_nil]
      omega
    · intro c hc
      rcases h2 c hc with h | h
      · have h' : c ∈ db.container ++ [contRow R vessel_ids shipment_id tid cnt] := h
        rcases List.mem_append.mp h' with h2' | h2'
        · exact Or.inl h2'
        · right
          exact ⟨cnt, tid, by simpa using h2'⟩
      · exact Or.inr h

theorem containersGo2_spec (td : String → Option Nat) (R : Rands)
    (vessel_ids : List Nat) (htd : ∀ nm ∈ containerTypes, (td nm).isSome) :
    ∀ (ss : List Nat) (j cnt : Nat) (db : DB),
      ∃ db' t, containersGo2 td R vessel_ids none ss j cnt db =
          some (cnt + t, db') ∧
        db'.container.length = db.container.length + t ∧
        ss.length ≤ t ∧ t ≤ 4 * ss.length ∧
        (∀ c ∈ db'.container, c ∈ db.container ∨
          (∃ s k tid, c = contRow R vessel_ids s tid k)) ∧
        db'.client = db.client ∧ db'.vessel = db.vessel ∧ db'.berth = db.berth ∧
        db'.shipment = db.shipment ∧ db'.shipmentStatus = db.shipmentStatus ∧
        db'.containerType = db.containerType ∧ db'.berthStatus = db.berthStatus
  | [], j, cnt, db =>
    ⟨db, 0, rfl, by simp, by simp, by simp, fun c hc => Or.inl hc,
     rfl, rfl, rfl, rfl, rfl, rfl, rfl⟩
  | s :: ss, j, cnt, db => by
    obtain ⟨db1, heq1, g1, g2, g3, g4, g5, g6, g7, g8, g9⟩ :=
      containersGo1_spec td R vessel_ids s htd (randomInt 1 4 (R.contCount j))
        cnt db
    obtain ⟨db2, t, heq2, k1, k2, k3, k4, k5, k6, k7, k8, k9, k10, k11⟩ :=
      containersGo2_spec td R vessel_ids htd ss (j + 1)
        (cnt + randomInt 1 4 (R.contCount j)) db1
    have hri := randomInt_le 1 4 (R.contCount j) (by omega)
    refine ⟨db2, randomInt 1 4 (R.contCount j) + t, ?_, ?_, ?_, ?_, ?_,
      k5.trans g3, k6.trans g4, k7.trans g5, k8.trans g6, k9.trans g7,
      k10.trans g8, k11.trans g9⟩
    · show (match containersGo1 td R vessel_ids none s
          (randomInt 1 4 (R.contCount j)) cnt db with
        | none => none
        | some p => containersGo2 td R vessel_ids none ss (j + 1) p.1 p.2) =
        some (cnt + (randomInt 1 4 (R.contCount j) + t), db2)
      rw [heq1]
      show containersGo2 td R vessel_ids none ss (j + 1)
        (cnt + randomInt 1 4 (R.contCount j)) db1 = _
      rw [heq2]
      congr 2
      omega
    · rw [k1, g1]
      omega
    · simp only [List.length_cons]
      omega
    · simp only [List.length_cons]
      omega
    · intro c hc
      rcases k4 c hc with h | h
      · rcases g2 c h with h' | ⟨k, tid, hrow⟩
        · exact Or.inl h'
        · exact Or.inr ⟨s, k, tid, hrow⟩
      · exact Or.inr h

/-- C10: with no injected failure the container stage succeeds, and every
generated container references a vessel exactly when the vessel id list is
non-empty: `vessel_id` is NULL iff no vessels were generated, and whenever at
least one vessel exists the reference is some member of the vessel id list
(the "optional" reference is never omitted in a run that produced vessels). -/
theorem C10_container_vessel_reference (db : DB)
    (shipment_ids vessel_ids : List Nat) (R : Rands)
    (htd : ∀ nm ∈ containerTypes, (dictOf db.containerType nm).isSome)
    (hempty : db.container = []) :
    ∃ cnt db',
      populate_containers db shipment_ids vessel_ids R none = some (cnt, db') ∧
      ∀ c ∈ db'.container,
        (c.vessel_id = none ↔ vessel_ids = []) ∧
        (vessel_ids ≠ [] → ∃ v ∈ vessel_ids, c.vessel_id = some v) := by
  obtain ⟨db', t, heq, _, _, _, hprop, _, _, _, _, _, _, _⟩ :=
    containersGo2_spec (dictOf db.containerType) R vessel_ids htd
      shipment_ids 0 0 db
  rw [Nat.zero_add] at heq
  refine ⟨t, db', ?_, ?_⟩
  · show (match containersGo2 (dictOf db.containerType) R vessel_ids none
        shipment_ids 0 0 db with
      | none => none
      | some p => if (none : Option Nat).isSome then none else some p) =
      some (t, db')
    rw [heq]
    rfl
  · intro c hc
    rcases hprop c hc with h | ⟨s, k, tid, hrow⟩
    · rw [hempty] at h
      simp at h
    · by_cases hv : vessel_ids = []
      · subst hv
        have hnone : c.vessel_id = none := by
          rw [hrow]
          rfl
        exact ⟨by simp [hnone], fun hne => absurd rfl hne⟩
      · have hlen : 0 < vessel_ids.length := List.length_pos.mpr hv
        have hlt : R.contVessel k % vessel_ids.length < vessel_ids.length :=
          Nat.mod_lt _ hlen
        have hvid : c.vessel_id =
            some (vessel_ids.get ⟨R.contVessel k % vessel_ids.length, hlt⟩) := by
          rw [hrow]
          show (if vessel_ids.isEmpty then none
            else vessel_ids.get? (R.contVessel k % vessel_ids.length)) = _
          rw [if_neg (by simpa using hv)]
          rw [List.get?_eq_get hlt]
        constructor
        · rw [hvid]
          constructor
          · intro hc'
            exact absurd hc' (by simp)
          · intro hc'
            exact absurd hc' hv
        · intro _
          exact ⟨_, List.get_mem vessel_ids _ _, hvid⟩

/-- Witness for C10: one shipment, two vessels, seeded `ContainerType`. -/
theorem C10_container_vessel_reference_witness :
    ((∀ nm ∈ containerTypes,
       (dictOf ({ emptyDB with containerType := containerTypeRows 0 } : DB).containerType
         nm).isSome) ∧
     ({ emptyDB with containerType := containerTypeRows 0 } : DB).container = []) ∧
    (∃ cnt db',
      populate_containers { emptyDB with containerType := containerTypeRows 0 }
        [70] [100, 101] R0 none = some (cnt, db') ∧
      ∀ c ∈ db'.container,
        (c.vessel_id = none ↔ ([100, 101] : List Nat) = []) ∧
        (([100, 101] : List Nat) ≠ [] →
          ∃ v ∈ ([100, 101] : List Nat), c.vessel_id = some v)) :=
  ⟨⟨by decide, rfl⟩,
   C10_container_vessel_reference
     { emptyDB with containerType := containerTypeRows 0 } [70] [100, 101] R0
     (by decide) rfl⟩

/-! ## Whole-stage wrappers and berth payload counts -/

theorem countP_gt_range' (L : Nat) :
    ∀ (n s : Nat),
      (List.range' s n).countP (fun i => decide (L < i)) = n - min n (L + 1 - s)
  | 0, s => by simp
  | n + 1, s => by
    rw [List.range'_succ, List.countP_cons, countP_gt_range' L n (s + 1)]
    by_cases h : L < s <;> simp [h] <;> omega

theorem mkBerthRows_countP_occ (o a : Nat) (hoa : o ≠ a) (v : List Nat) :
    ((List.range' 1 20).map (mkBerthRow o a v)).countP
      (fun b => decide (b.berth_status_id = o)) = min 20 v.length := by
  rw [List.countP_map]
  have e : List.countP ((fun b => decide (b.berth_status_id = o)) ∘ mkBerthRow o a v)
      (List.range' 1 20) =
      List.countP (fun i => decide (i ≤ v.length)) (List.range' 1 20) := by
    rw [List.countP_eq_length_filter, List.countP_eq_length_filter]
    congr 1
    apply List.filter_congr
    intro i _
    by_cases hi : i ≤ v.length <;>
      simp [Function.comp, mkBerthRow, hi, hoa, Ne.symm hoa]
  rw [e, countP_le_range']
  omega

theorem mkBerthRows_countP_avail (o a : Nat) (hoa : o ≠ a) (v : List Nat) :
    ((List.range' 1 20).map (mkBerthRow o a v)).countP
      (fun b => decide (b.berth_status_id = a)) = 20 - min 20 v.length := by
  rw [List.countP_map]
  have e : List.countP ((fun b => decide (b.berth_status_id = a)) ∘ mkBerthRow o a v)
      (List.range' 1 20) =
      List.countP (fun i => decide (v.length < i)) (List.range' 1 20) := by
    rw [List.countP_eq_length_filter, List.countP_eq_length_filter]
    congr 1
    apply List.filter_congr
    intro i _
    by_cases hi : i ≤ v.length <;>
      simp [Function.comp, mkBerthRow, hi, hoa, Ne.symm hoa] <;> omega
  rw [e, countP_gt_range' v.length 20 1]
  omega

theorem populate_clients_spec (db : DB) (companies : List String) (R : Rands) :
    (populate_clients db companies R).1.length = companies.length ∧
    (populate_clients db companies R).2.client.length =
      db.client.length + companies.length ∧
    (populate_clients db companies R).2.vessel = db.vessel ∧
    (populate_clients db companies R).2.berth = db.berth ∧
    (populate_clients db companies R).2.shipment = db.shipment ∧
    (populate_clients db companies R).2.container = db.container ∧
    (populate_clients db companies R).2.shipmentStatus = db.shipmentStatus ∧
    (populate_clients db companies R).2.containerType = db.containerType ∧
    (populate_clients db companies R).2.berthStatus = db.berthStatus := by
  obtain ⟨h1, h2, h3, h4, h5, h6, h7, h8, h9⟩ := clientsGo_spec R companies 0 db []
  exact ⟨by simpa using h1, h2, h3, h4, h5, h6, h7, h8, h9⟩

theorem populate_vessels_spec (db : DB) (client_count : Nat) (R : Rands) :
    (populate_vessels db client_count R).1.length = client_count * 3 ∧
    (populate_vessels db client_count R).2.vessel.length =
      db.vessel.length + client_count * 3 ∧
    (populate_vessels db client_count R).2.client = db.client ∧
    (populate_vessels db client_count R).2.berth = db.berth ∧
    (populate_vessels db client_count R).2.shipment = db.shipment ∧
    (populate_vessels db client_count R).2.container = db.container ∧
    (populate_vessels db client_count R).2.shipmentStatus = db.shipmentStatus ∧
    (populate_vessels db client_count R).2.containerType = db.containerType ∧
    (populate_vessels db client_count R).2.berthStatus = db.berthStatus := by
  obtain ⟨h1, h2, h3, h4, h5, h6, h7, h8, h9⟩ :=
    vesselsGo_spec R (client_count * 3) 0 db []
  exact ⟨by simpa using h1, h2, h3, h4, h5, h6, h7, h8, h9⟩

theorem populate_berths_spec (db : DB) (vessel_ids : List Nat) (o a : Nat)
    (ho : dictOf db.berthStatus "OCCUPIED" = some o)
    (ha : dictOf db.berthStatus "AVAILABLE" = some a) :
    ∃ ids db', populate_berths db vessel_ids = some (ids, db') ∧
      db'.berth.map (fun r => r.2) =
        db.berth.map (fun r => r.2) ++
          (List.range' 1 20).map (mkBerthRow o a vessel_ids) ∧
      db'.berth.length = db.berth.length + 20 ∧
      ids.length = 20 ∧
      db'.client = db.client ∧ db'.vessel = db.vessel ∧
      db'.shipment = db.shipment ∧ db'.container = db.container ∧
      db'.shipmentStatus = db.shipmentStatus ∧
      db'.containerType = db.containerType ∧ db'.berthStatus = db.berthStatus := by
  obtain ⟨ids, db', heq, h1, h2, h3, h4, h5, h6, h7, h8, h9, h10⟩ :=
    berthsGo_spec (dictOf db.berthStatus) vessel_ids o a ho ha
      (List.range' 1 20) db []
  exact ⟨ids, db', heq, h1, by simpa using h2, by simpa using h3,
    h4, h5, h6, h7, h8, h9, h10⟩

theorem populate_shipments_spec (db : DB) (client_ids : List Nat)
    (ports : List String) (R : Rands) (hp : 2 ≤ ports.length)
    (hsd : ∀ nm ∈ status_options, (dictOf db.shipmentStatus nm).isSome) :
    ∃ ids db' t, populate_shipments db client_ids ports R = some (ids, db') ∧
      ids.length = t ∧
      db'.shipment.length = db.shipment.length + t ∧
      2 * client_ids.length ≤ t ∧ t ≤ 5 * client_ids.length ∧
      (∀ r ∈ db'.shipment, r ∈ db.shipment ∨
        (∃ c k sid, r.2 = shipRow R c sid k ∧
          sid ∈ status_options.filterMap (dictOf db.shipmentStatus))) ∧
      db'.client = db.client ∧ db'.vessel = db.vessel ∧ db'.berth = db.berth ∧
      db'.container = db.container ∧ db'.shipmentStatus = db.shipmentStatus ∧
      db'.containerType = db.containerType ∧ db'.berthStatus = db.berthStatus := by
  obtain ⟨ids, db', t, heq, h1, h2, h3, h4, h5, h6, h7, h8, h9, h10, h11, h12⟩ :=
    shipmentsGo2_spec (dictOf db.shipmentStatus) ports R (by omega) hsd
      client_ids 0 db []
  exact ⟨ids, db', t, heq, by simpa using h1, h2, h3, h4, h5,
    h6, h7, h8, h9, h10, h11, h12⟩

theorem populate_containers_spec (db : DB) (shipment_ids vessel_ids : List Nat)
    (R : Rands)
    (htd : ∀ nm ∈ containerTypes, (dictOf db.containerType nm).isSome) :
    ∃ t db', populate_containers db shipment_ids vessel_ids R none =
        some (t, db') ∧
      db'.container.length = db.container.length + t ∧
      shipment_ids.length ≤ t ∧ t ≤ 4 * shipment_ids.length ∧
      (∀ c ∈ db'.container, c ∈ db.container ∨
        (∃ s k tid, c = contRow R vessel_ids s tid k)) ∧
      db'.client = db.client ∧ db'.vessel = db.vessel ∧ db'.berth = db.berth ∧
      db'.shipment = db.shipment ∧ db'.shipmentStatus = db.shipmentStatus ∧
      db'.containerType = db.containerType ∧ db'.berthStatus = db.berthStatus := by
  obtain ⟨db', t, heq, h1, h2, h3, h4, h5, h6, h7, h8, h9, h10, h11⟩ :=
    containersGo2_spec (dictOf db.containerType) R vessel_ids htd
      shipment_ids 0 0 db
  rw [Nat.zero_add] at heq
  refine ⟨t, db', ?_, h1, h2, h3, h4, h5, h6, h7, h8, h9, h10, h11⟩
  show (match containersGo2 (dictOf db.containerType) R vessel_ids none
      shipment_ids 0 0 db with
    | none => none
    | some p => if (none : Option Nat).isSome then none else some p) =
    some (t, db')
  rw [heq]
  rfl

/-! ## The atomicity scenario (C2) -/

theorem populate_containers_inject (db : DB) (ss vs : List Nat) (R : Rands)
    (k : Nat) : populate_containers db ss vs R (some k) = none := by
  unfold populate_containers
  cases h : containersGo2 (dictOf db.containerType) R vs (some k) ss 0 0 db with
  | none => rfl
  | some p => rfl

theorem seedEntities_inject (db : DB) (companies ports : List String)
    (R : Rands) (k : Nat) :
    seedEntities db companies ports R (some k) = none := by
  show (match populate_berths
      (populate_vessels (populate_clients db companies R).2
        (populate_clients db companies R).1.length R).2
      (populate_vessels (populate_clients db companies R).2
        (populate_clients db companies R).1.length R).1 with
    | none => none
    | some pb =>
      match populate_shipments pb.2 (populate_clients db companies R).1 ports R with
      | none => none
      | some ps =>
        match populate_containers ps.2 ps.1
            (populate_vessels (populate_clients db companies R).2
              (populate_clients db companies R).1.length R).1 R (some k) with
        | none => none
        | some pcon => some pcon.2) = none
  cases populate_berths
      (populate_vessels (populate_clients db companies R).2
        (populate_clients db companies R).1.length R).2
      (populate_vessels (populate_clients db companies R).2
        (populate_clients db companies R).1.length R).1 with
  | none => rfl
  | some pb =>
    show (match populate_shipments pb.2 (populate_clients db companies R).1
        ports R with
      | none => none
      | some ps =>
        match populate_containers ps.2 ps.1
            (populate_vessels (populate_clients db companies R).2
              (populate_clients db companies R).1.length R).1 R (some k) with
        | none => none
        | some pcon => some pcon.2) = none
    cases populate_shipments pb.2 (populate_clients db companies R).1 ports R with
    | none => rfl
    | some ps =>
      show (match populate_containers ps.2 ps.1
          (populate_vessels (populate_clients db companies R).2
            (populate_clients db companies R).1.length R).1 R (some k) with
        | none => none
        | some pcon => some pcon.2) = none
      rw [populate_containers_inject]

theorem mainRun_inject (db0 : DB) (companies ports : List String) (R : Rands)
    (k : Nat) :
    mainRun db0 companies ports R (some k) =
      (populate_lookup_tables (truncate_tables (ConnState.mk db0 db0))).committed := by
  show (match seedEntities
      (populate_lookup_tables (truncate_tables (ConnState.mk db0 db0))).current
      companies ports R (some k) with
    | none => (ConnState.rollback
        (populate_lookup_tables (truncate_tables (ConnState.mk db0 db0)))).committed
    | some cur => (ConnState.commit
        { populate_lookup_tables (truncate_tables (ConnState.mk db0 db0)) with
          current := cur }).committed) =
    (populate_lookup_tables (truncate_tables (ConnState.mk db0 db0))).committed
  rw [seedEntities_inject]
  rfl

/-- C2 (amended): an exception injected during Container seeding rolls back
the open transaction, so the five entity tables are left with their committed
state from the reset, i.e. zero rows — but the three enumeration tables keep
the rows committed by lookup seeding (5 shipment statuses, 4 container types,
3 berth statuses): the run commits after reset and after lookup seeding, and
only the entity stages form one atomic transaction. -/
theorem C2_entity_rollback_keeps_lookups (db0 : DB)
    (companies ports : List String) (R : Rands) (k : Nat) :
    (mainRun db0 companies ports R (some k)).client = [] ∧
    (mainRun db0 companies ports R (some k)).vessel = [] ∧
    (mainRun db0 companies ports R (some k)).berth = [] ∧
    (mainRun db0 companies ports R (some k)).shipment = [] ∧
    (mainRun db0 companies ports R (some k)).container = [] ∧
    (mainRun db0 companies ports R (some k)).shipmentStatus.length = 5 ∧
    (mainRun db0 companies ports R (some k)).containerType.length = 4 ∧
    (mainRun db0 companies ports R (some k)).berthStatus.length = 3 := by
  rw [mainRun_inject]
  have e : (populate_lookup_tables (truncate_tables (ConnState.mk db0 db0))).committed =
      populateLookupDb (truncate_tables (ConnState.mk db0 db0)).current := rfl
  rw [e, populateLookupDb_of_empty _ rfl rfl rfl]
  exact ⟨rfl, rfl, rfl, rfl, rfl, rfl, rfl, rfl⟩

/-- Counterexample to C2 as stated: at a concrete run with a failure injected
during Container seeding, the committed store afterwards is NOT empty in
every seeded table — the three enumeration tables keep their rows (the
`ShipmentStatus` table holds its 5 rows), because `populate_lookup_tables`
commits before the entity stages run. -/
theorem C2_counterexample_lookup_rows_persist :
    (mainRun emptyDB fallbackCompanies fallbackPorts R0 (some 1)).shipmentStatus.length
      = 5 ∧
    ¬ ((mainRun emptyDB fallbackCompanies fallbackPorts R0 (some 1)).shipmentStatus = [] ∧
       (mainRun emptyDB fallbackCompanies fallbackPorts R0 (some 1)).containerType = [] ∧
       (mainRun emptyDB fallbackCompanies fallbackPorts R0 (some 1)).berthStatus = [] ∧
       (mainRun emptyDB fallbackCompanies fallbackPorts R0 (some 1)).client = [] ∧
       (mainRun emptyDB fallbackCompanies fallbackPorts R0 (some 1)).vessel = [] ∧
       (mainRun emptyDB fallbackCompanies fallbackPorts R0 (some 1)).berth = [] ∧
       (mainRun emptyDB fallbackCompanies fallbackPorts R0 (some 1)).shipment = [] ∧
       (mainRun emptyDB fallbackCompanies fallbackPorts R0 (some 1)).container = []) := by
  rw [mainRun_inject]
  decide

/-! ## Fetch and scrape behavior (C3, C4) -/

/-- Counterexample to C4 as stated: on a rate-limited (429) response the
fetch helper performs zero back-off/retry cycles — not exactly one —
because `raise_for_status()` raises on the 429 before the retry branch is
reached, and the exception handler returns `None`. -/
theorem C4_counterexample_no_retry_on_429 :
    get_wikipedia_data [FetchResp.success 429 []] = (none, 0) ∧
    (get_wikipedia_data [FetchResp.success 429 []]).2 ≠ 1 := by
  decide

/-- C4 (amended): the fetch helper never sleeps or retries — on every finite
response sequence it performs zero back-off/retry cycles, and a rate-limited
(429) first response is handled as a retrieval failure (content `none`) by
the `raise_for_status` exception path; the recursive retry self-call is dead
code, so the helper terminates on every input. -/
theorem C4_fetch_never_retries (responses : List FetchResp) :
    (get_wikipedia_data responses).2 = 0 ∧
    (∀ body rest, responses = FetchResp.success 429 body :: rest →
      (get_wikipedia_data responses).1 = none) := by
  constructor
  · cases responses with
    | nil => rfl
    | cons r rest =>
      cases r with
      | failure => rfl
      | success status body =>
        show (if 400 ≤ status then ((none : Option Page), 0)
          else if status = 429 then
            ((get_wikipedia_data rest).1, (get_wikipedia_data rest).2 + 1)
          else (some body, 0)).2 = 0
        by_cases h4 : 400 ≤ status
        · rw [if_pos h4]
        · rw [if_neg h4, if_neg (by omega)]
  · intro body rest hres
    subst hres
    rfl

/-- Witness for C4 (amended) at a concrete rate-limited response. -/
theorem C4_fetch_never_retries_witness :
    (get_wikipedia_data [FetchResp.success 429 []]).2 = 0 ∧
    (get_wikipedia_data [FetchResp.success 429 []]).1 = none :=
  ⟨(C4_fetch_never_retries [FetchResp.success 429 []]).1,
   (C4_fetch_never_retries [FetchResp.success 429 []]).2 [] [] rfl⟩

/-- Counterexample to C3 as stated: resolving container ports against an
unreachable endpoint (the request raises, `get_wikipedia_data` returns
`None`) yields the empty list, not the fixed fallback list. -/
theorem C3_counterexample_unreachable_returns_empty :
    scrape_container_ports [FetchResp.failure] = [] ∧
    scrape_container_ports [FetchResp.failure] ≠ fallbackPorts := by
  decide

/-- C3 (amended): `scrape_container_ports` returns the fixed fallback list
`["Shanghai","Singapore","Ningbo-Zhoushan","Shenzhen","Guangzhou"]` only when
a page is fetched but contains no `wikitable`; on fetch failure — network
error, timeout, or a non-2xx (≥ 400) status, all of which make
`get_wikipedia_data` return no content — it returns the empty list instead. -/
theorem C3_fallback_only_without_table (responses : List FetchResp) :
    ((get_wikipedia_data responses).1 = none →
      scrape_container_ports responses = []) ∧
    ((get_wikipedia_data responses).1 = some [] →
      scrape_container_ports responses = fallbackPorts) ∧
    (∀ status body rest, 400 ≤ status →
      scrape_container_ports (FetchResp.success status body :: rest) = []) := by
  refine ⟨?_, ?_, ?_⟩
  · intro h
    unfold scrape_container_ports
    rw [h]
  · intro h
    unfold scrape_container_ports
    rw [h]
  · intro status body rest h4
    have he : (get_wikipedia_data (FetchResp.success status body :: rest)).1 =
        none := by
      show (if 400 ≤ status then ((none : Option Page), 0)
        else if status = 429 then
          ((get_wikipedia_data rest).1, (get_wikipedia_data rest).2 + 1)
        else (some body, 0)).1 = none
      rw [if_pos h4]
    unfold scrape_container_ports
    rw [he]

/-- Witness for C3 (amended): an unreachable endpoint yields `[]`, a fetched
page without tables yields the fallback list, a 404 yields `[]`. -/
theorem C3_fallback_only_without_table_witness :
    scrape_container_ports [FetchResp.failure] = [] ∧
    scrape_container_ports [FetchResp.success 200 []] = fallbackPorts ∧
    scrape_container_ports [FetchResp.success 404 [[["x", "y", "z"]]]] = [] :=
  ⟨(C3_fallback_only_without_table [FetchResp.failure]).1 rfl,
   (C3_fallback_only_without_table [FetchResp.success 200 []]).2.1 rfl,
   (C3_fallback_only_without_table [FetchResp.success 404 [[["x", "y", "z"]]]]).2.2
     404 [[["x", "y", "z"]]] [] (by omega)⟩

/-! ## The end-to-end scenario (C8) -/

/-- C8: with 6 resolved company names and 5 resolved port names, a run with
no injected failure succeeds and commits exactly 6 clients, 18 vessels
(3 per client), 20 berths of which 18 carry the OCCUPIED status id and 2 the
AVAILABLE status id, a shipment count between 12 and 30 inclusive (2–5 per
client), and a container count between 1× and 4× the shipment count
inclusive (1–4 per shipment). -/
theorem C8_end_to_end_counts (db0 : DB) (companies ports : List String)
    (R : Rands) (hc : companies.length = 6) (hp : ports.length = 5) :
    ∃ o a,
      dictOf (mainRun db0 companies ports R none).berthStatus "OCCUPIED" =
        some o ∧
      dictOf (mainRun db0 companies ports R none).berthStatus "AVAILABLE" =
        some a ∧
      (mainRun db0 companies ports R none).client.length = 6 ∧
      (mainRun db0 companies ports R none).vessel.length = 18 ∧
      (mainRun db0 companies ports R none).berth.length = 20 ∧
      (mainRun db0 companies ports R none).berth.countP
        (fun r => decide (r.2.berth_status_id = o)) = 18 ∧
      (mainRun db0 companies ports R none).berth.countP
        (fun r => decide (r.2.berth_status_id = a)) = 2 ∧
      12 ≤ (mainRun db0 companies ports R none).shipment.length ∧
      (mainRun db0 companies ports R none).shipment.length ≤ 30 ∧
      (mainRun db0 companies ports R none).shipment.length ≤
        (mainRun db0 companies ports R none).container.length ∧
      (mainRun db0 companies ports R none).container.length ≤
        4 * (mainRun db0 companies ports R none).shipment.length := by
  set T := (populate_lookup_tables (truncate_tables (ConnState.mk db0 db0))).current
    with hTdef
  have hTfields : T =
      { (truncate_tables (ConnState.mk db0 db0)).current with
        shipmentStatus := shipmentStatusRows db0.nextId
        containerType := containerTypeRows (db0.nextId + 5)
        berthStatus := berthStatusRows (db0.nextId + 9)
        nextId := db0.nextId + 12 } := by
    show populateLookupDb (truncate_tables (ConnState.mk db0 db0)).current = _
    exact populateLookupDb_of_empty _ rfl rfl rfl
  have t1 : T.shipmentStatus = shipmentStatusRows db0.nextId := by rw [hTfields]
  have t2 : T.containerType = containerTypeRows (db0.nextId + 5) := by rw [hTfields]
  have t3 : T.berthStatus = berthStatusRows (db0.nextId + 9) := by rw [hTfields]
  have t4 : T.client = [] := by rw [hTfields]; rfl
  have t5 : T.vessel = [] := by rw [hTfields]; rfl
  have t6 : T.berth = [] := by rw [hTfields]; rfl
  have t7 : T.shipment = [] := by rw [hTfields]; rfl
  have t8 : T.container = [] := by rw [hTfields]; rfl
  obtain ⟨e1, e2, e3, e4, e5, e6, e7, e8, e9⟩ := populate_clients_spec T companies R
  set pc := populate_clients T companies R with hpc
  obtain ⟨f1, f2, f3, f4, f5, f6, f7, f8, f9⟩ :=
    populate_vessels_spec pc.2 pc.1.length R
  set pv := populate_vessels pc.2 pc.1.length R with hpv
  have hc6 : pc.1.length = 6 := by rw [e1, hc]
  have hv18 : pv.1.length = 18 := by rw [f1, hc6]
  have ho : dictOf pv.2.berthStatus "OCCUPIED" = some (db0.nextId + 10) := by
    rw [f9, e9, t3]
    rfl
  have ha : dictOf pv.2.berthStatus "AVAILABLE" = some (db0.nextId + 9) := by
    rw [f9, e9, t3]
    rfl
  obtain ⟨idsB, dbB, heqB, hmapB, hlenB, _, g5, g6, g7, g8, g9, g10, g11⟩ :=
    populate_berths_spec pv.2 pv.1 (db0.nextId + 10) (db0.nextId + 9) ho ha
  have hss : dbB.shipmentStatus = shipmentStatusRows db0.nextId := by
    rw [g9, f7, e7, t1]
  have hsd : ∀ nm ∈ status_options, (dictOf dbB.shipmentStatus nm).isSome := by
    rw [hss]
    intro nm hnm
    fin_cases hnm <;> rfl
  obtain ⟨idsS, dbS, t, heqS, hidsS, hslen, hlo, hhi, _, s7, s8, s9, s10, s11,
      s12, s13⟩ := populate_shipments_spec dbB pc.1 ports R (by omega) hsd
  have hts : dbS.shipment.length = t := by
    rw [hslen, g7, f5, e5, t7]
    simp
  have hct : dbS.containerType = containerTypeRows (db0.nextId + 5) := by
    rw [s12, g10, f8, e8, t2]
  have htd : ∀ nm ∈ containerTypes, (dictOf dbS.containerType nm).isSome := by
    rw [hct]
    intro nm hnm
    fin_cases hnm <;> rfl
  obtain ⟨tc, dbC, heqC, hclen, hclo, hchi, _, c5, c6, c7, c8, c9, c10, c11⟩ :=
    populate_containers_spec dbS idsS pv.1 R htd
  have hseed : seedEntities T companies ports R none = some dbC := by
    show (match populate_berths
        (populate_vessels (populate_clients T companies R).2
          (populate_clients T companies R).1.length R).2
        (populate_vessels (populate_clients T companies R).2
          (populate_clients T companies R).1.length R).1 with
      | none => none
      | some pb =>
        match populate_shipments pb.2 (populate_clients T companies R).1
            ports R with
        | none => none
        | some ps =>
          match populate_containers ps.2 ps.1
              (populate_vessels (populate_clients T companies R).2
                (populate_clients T companies R).1.length R).1 R none with
          | none => none
          | some pcon => some pcon.2) = some dbC
    rw [← hpc, ← hpv]
    simp only [heqB, heqS, heqC]
  have hmain : mainRun db0 companies ports R none = dbC := by
    show (match seedEntities
        (populate_lookup_tables (truncate_tables (ConnState.mk db0 db0))).current
        companies ports R none with
      | none => (ConnState.rollback
          (populate_lookup_tables (truncate_tables (ConnState.mk db0 db0)))).committed
      | some cur => (ConnState.commit
          { populate_lookup_tables (truncate_tables (ConnState.mk db0 db0)) with
            current := cur }).committed) = dbC
    rw [← hTdef, hseed]
    rfl
  rw [hmain]
  have hmapB' : dbB.berth.map (fun r => r.2) =
      (List.range' 1 20).map
        (mkBerthRow (db0.nextId + 10) (db0.nextId + 9) pv.1) := by
    rw [hmapB, f4, e4, t6]
    simp
  have hcont : dbC.container.length = tc := by
    rw [hclen, s10, g8, f6, e6, t8]
    simp
  refine ⟨db0.nextId + 10, db0.nextId + 9, ?_, ?_, ?_, ?_, ?_, ?_, ?_, ?_, ?_,
    ?_, ?_⟩
  · rw [c11, s13, g11, f9, e9, t3]
    rfl
  · rw [c11, s13, g11, f9, e9, t3]
    rfl
  · rw [c5, s7, g5, f3, e2, t4, hc]
    simp
  · rw [c6, s8, g6, f2, e3, t5, hc6]
    simp
  · rw [c7, s9, hlenB, f4, e4, t6]
    simp
  · rw [c7, s9]
    have ecount : dbB.berth.countP
        (fun r => decide (r.2.berth_status_id = db0.nextId + 10)) =
        (dbB.berth.map (fun r => r.2)).countP
          (fun b => decide (b.berth_status_id = db0.nextId + 10)) := by
      rw [List.countP_map]
      rfl
    rw [ecount, hmapB', mkBerthRows_countP_occ _ _ (by omega) _, hv18]
    omega
  · rw [c7, s9]
    have ecount : dbB.berth.countP
        (fun r => decide (r.2.berth_status_id = db0.nextId + 9)) =
        (dbB.berth.map (fun r => r.2)).countP
          (fun b => decide (b.berth_status_id = db0.nextId + 9)) := by
      rw [List.countP_map]
      rfl
    rw [ecount, hmapB', mkBerthRows_countP_avail _ _ (by omega) _, hv18]
    omega
  · rw [c8, hts]
    omega
  · rw [c8, hts]
    omega
  · rw [c8, hts, hcont]
    omega
  · rw [c8, hts, hcont]
    omega

/-- Witness for C8: the two fallback name lists (6 companies, 5 ports), the
empty starting database, the all-zero draw record. -/
theorem C8_end_to_end_counts_witness :
    (fallbackCompanies.length = 6 ∧ fallbackPorts.length = 5) ∧
    (∃ o a,
      dictOf (mainRun emptyDB fallbackCompanies fallbackPorts R0 none).berthStatus
        "OCCUPIED" = some o ∧
      dictOf (mainRun emptyDB fallbackCompanies fallbackPorts R0 none).berthStatus
        "AVAILABLE" = some a ∧
      (mainRun emptyDB fallbackCompanies fallbackPorts R0 none).client.length = 6 ∧
      (mainRun emptyDB fallbackCompanies fallbackPorts R0 none).vessel.length = 18 ∧
      (mainRun emptyDB fallbackCompanies fallbackPorts R0 none).berth.length = 20 ∧
      (mainRun emptyDB fallbackCompanies fallbackPorts R0 none).berth.countP
        (fun r => decide (r.2.berth_status_id = o)) = 18 ∧
      (mainRun emptyDB fallbackCompanies fallbackPorts R0 none).berth.countP
        (fun r => decide (r.2.berth_status_id = a)) = 2 ∧
      12 ≤ (mainRun emptyDB fallbackCompanies fallbackPorts R0 none).shipment.length ∧
      (mainRun emptyDB fallbackCompanies fallbackPorts R0 none).shipment.length ≤ 30 ∧
      (mainRun emptyDB fallbackCompanies fallbackPorts R0 none).shipment.length ≤
        (mainRun emptyDB fallbackCompanies fallbackPorts R0 none).container.length ∧
      (mainRun emptyDB fallbackCompanies fallbackPorts R0 none).container.length ≤
        4 * (mainRun emptyDB fallbackCompanies fallbackPorts R0 none).shipment.length) :=
  ⟨⟨by decide, by decide⟩,
   C8_end_to_end_counts emptyDB fallbackCompanies fallbackPorts R0
     (by decide) (by decide)⟩

end PopulateDb
